import Mathlib

/-!
Verification development for the PlexRedisManager fleet scheduler.

The Rust sources are embedded shallowly: pure functions become Lean
functions, Redis-backed operations become functions of an explicit cache
state (a list of the parsed values stored under the relevant keys), and
random rerolls become existentially quantified results constrained exactly
by the loop conditions of the source.  Machine integers are modelled as
`Nat`/`Int` with explicit wrap-around (release-mode Rust semantics) at the
points where the source performs `as` casts or arithmetic that can
overflow.  A Rust function that can panic is modelled with an explicit
`panicked` outcome.  Error payload strings are kept only where a claim
depends on them; where the source formats a long interpolated message the
model keeps a short fixed label instead.
-/

/-! ## Machine integer helpers -/

/-- Reinterpretation of the low 16 bits of an integer as a signed 16-bit
value (the semantics of Rust `as i16` casts and of wrapping 16-bit
arithmetic). -/
def toI16 (z : Int) : Int := (z + 32768) % 65536 - 32768

/-- Rust `i16` subtraction with wrap-around (release mode). -/
def i16sub (a b : Int) : Int := toI16 (a - b)

/-- Rust `i16` addition with wrap-around (release mode). -/
def i16add (a b : Int) : Int := toI16 (a + b)

/-- Rust `usize as i16` cast. -/
def usizeToI16 (n : Nat) : Int := toI16 (n : Int)

/-- Rust `i64 as u16` cast: keep the low 16 bits. -/
def i64ToU16 (n : Int) : Nat := (n % 65536).toNat

/-- Rust `i64 as u8` cast: keep the low 8 bits. -/
def i64ToU8 (n : Int) : Nat := (n % 256).toNat

/-- Rust `i64 as u64` cast: twos-complement reinterpretation. -/
def i64ToU64 (n : Int) : Nat := (n % 18446744073709551616).toNat

/-- Rust `u16` addition with wrap-around (release mode). -/
def u16add (a b : Nat) : Nat := (a + b) % 65536

/-- Rust `u64` subtraction with wrap-around (release mode); both arguments
are below `2 ^ 64`. -/
def u64sub (a b : Nat) : Nat := (a + 18446744073709551616 - b) % 18446744073709551616

/-- Rust `u64` addition with wrap-around (release mode). -/
def u64add (a b : Nat) : Nat := (a + b) % 18446744073709551616

/-! ## Decimal printing and parsing

Rust `Display` for unsigned integers prints the usual decimal digits;
`str::parse` for an unsigned type accepts an optional leading `+`, then
one or more decimal digits, and fails on overflow of the target type.
-/

/-- Decimal digit character for a value below ten. -/
def decDigitChar (d : Nat) : Char := Char.ofNat (48 + d)

/-- Decimal digit accumulation with explicit fuel (any fuel above the
argument suffices; structural recursion keeps it kernel-computable). -/
def natToCharsAux (fuel n : Nat) : List Char :=
  match fuel with
  | 0 => []
  | fuel + 1 =>
    if n < 10 then [decDigitChar n]
    else natToCharsAux fuel (n / 10) ++ [decDigitChar (n % 10)]

/-- Decimal digit characters of a natural number, most significant first
(the output of Rust `to_string` on an unsigned integer). -/
def natToChars (n : Nat) : List Char := natToCharsAux (n + 1) n

/-- Rust `to_string` for an unsigned integer. -/
def natToString (n : Nat) : String := ⟨natToChars n⟩

/-- Rust `bool::to_string`. -/
def boolToString (b : Bool) : String := if b then "true" else "false"

/-- Value of a decimal digit character, `char::to_digit(10)` in the source. -/
def decDigitVal (c : Char) : Option Nat :=
  if 48 ≤ c.toNat ∧ c.toNat ≤ 57 then some (c.toNat - 48) else none

/-- One step of the checked accumulation inside `str::parse` for an
unsigned integer bounded by `max`. -/
def parseStep (max : Nat) (acc : Option Nat) (c : Char) : Option Nat :=
  match acc with
  | none => none
  | some a =>
    match decDigitVal c with
    | none => none
    | some d => if a * 10 + d ≤ max then some (a * 10 + d) else none

/-- Strip one leading `+` sign, as `str::parse` for unsigned types does. -/
def stripPlusSign (cs : List Char) : List Char :=
  match cs with
  | [] => []
  | c :: rest => if c = '+' then rest else c :: rest

/-- Rust `str::parse` into an unsigned integer type whose maximal value is
`max`: `none` models `Err(ParseIntError)` (empty input, a non-digit
character, or overflow past `max`). -/
def parseUnsigned (max : Nat) (s : String) : Option Nat :=
  let ds := stripPlusSign s.data
  if ds.isEmpty then none
  else ds.foldl (parseStep max) (some 0)

/-! ## Region (`src/region.rs`) -/

/-- Region enumeration from `src/region.rs`. -/
inductive Region where
  | US
  | EU
  | ALL
deriving DecidableEq, Repr

/-- Display for `Region` (strum derive: the variant name). -/
def Region.toStr : Region → String
  | .US => "US"
  | .EU => "EU"
  | .ALL => "ALL"

/-- Region `TryFrom<String>` from `src/region.rs`: `"US"` and `""` parse
to `US`, otherwise exact variant names; anything else is an error. -/
def Region.tryFrom (value : String) : Except String Region :=
  if value = "US" ∨ value = "" then .ok .US
  else if value = "EU" then .ok .EU
  else if value = "ALL" then .ok .ALL
  else .error "Region could not be parsed."

/-! ## String-valued hash maps

Redis hashes (`HGETALL` results) are all-string maps; the model is an
association list with `HashMap::get` as first-match lookup.
-/

/-- A Rust `HashMap<String, String>` value, as the list of its entries. -/
def Smap : Type := List (String × String)

/-- HashMap lookup (`map.get(key)`). -/
def mget (m : Smap) (k : String) : Option String :=
  (List.find? (fun p => p.1 == k) m).map (fun p => p.2)

/-- HashMap emptiness check (`map.is_empty()`). -/
def misEmpty (m : Smap) : Bool :=
  match m with
  | [] => true
  | _ => false

/-! ## ServerGroup (`src/server/server_group.rs`)

The `prefix` field of the Rust struct is called `prefixName` here because
`prefix` is a Lean keyword; everything else keeps its source name.
Numeric fields have their Rust widths (`u8`, `u16`) modelled as `Nat`
with the width bound carried as a hypothesis where a claim needs it.
-/

/-- The `ServerGroup` struct from `src/server/server_group.rs`. -/
structure ServerGroup where
  name : String
  prefixName : String
  ram : Nat
  cpu : Nat
  total_servers : Nat
  joinable_servers : Nat
  port_section : Nat
  uptimes : Option String
  arcade_group : Bool
  world_zip : String
  plugin : String
  config_path : String
  host : Option String
  min_players : Nat
  max_players : Nat
  pvp : Bool
  tournament : Bool
  tournament_points : Bool
  hard_max_player_cap : Bool
  games : Option String
  modes : Option String
  booster_group : Option String
  server_type : String
  add_no_cheat : Bool
  add_world_edit : Bool
  team_rejoin : Bool
  team_auto_join : Bool
  team_force_balance : Bool
  game_auto_start : Bool
  game_timeout : Bool
  game_voting : Bool
  map_voting : Bool
  reward_gems : Bool
  reward_items : Bool
  reward_stats : Bool
  reward_achievements : Bool
  hotbar_inventory : Bool
  hotbar_hub_clock : Bool
  player_kick_idle : Bool
  staff_only : Bool
  whitelist : Bool
  resource_pack : Option String
  region : Region
  team_server_key : Option String
  portal_bottom_corner_location : Option String
  portal_top_corner_location : Option String
  npc_name : Option String
deriving DecidableEq, Repr

/-- Helper `parse_value` from `src/server/server_group.rs`: required string
field, error when the key is missing. -/
def parse_value (p : String) (map : Smap) (key : String) : Except String String :=
  match mget map key with
  | some v => .ok v
  | none => .error ("servergroups." ++ p ++ " " ++ key ++ " could not be found.")

/-- Helper `parse_bool_or_default` from `src/server/server_group.rs`:
missing key reads as the empty string; `"true"`, `"false"`, `"null"`, `""`
are accepted and anything else is an error. -/
def parse_bool_or_default (p : String) (map : Smap) (key : String) : Except String Bool :=
  match (mget map key).getD "" with
  | "true" => .ok true
  | "false" => .ok false
  | "null" => .ok false
  | "" => .ok false
  | _ => .error ("servergroups." ++ p ++ ": " ++ key ++ " could not be found")

/-- Helper `parse_u8` from `src/server/server_group.rs`. -/
def parse_u8 (p : String) (map : Smap) (key : String) : Except String Nat :=
  match mget map key with
  | none => .error ("servergroups." ++ p ++ " " ++ key ++ " (u8) could not be found.")
  | some s =>
    match parseUnsigned 255 s with
    | some n => .ok n
    | none => .error ("servergroups." ++ p ++ " " ++ key ++ " (u8) parse error")

/-- Helper `parse_u16` from `src/server/server_group.rs`. -/
def parse_u16 (p : String) (map : Smap) (key : String) : Except String Nat :=
  match mget map key with
  | none => .error ("servergroups." ++ p ++ " " ++ key ++ " (u16) could not be found")
  | some s =>
    match parseUnsigned 65535 s with
    | some n => .ok n
    | none => .error ("servergroups." ++ p ++ " " ++ key ++ " (u16) parse error")

/-- Helper `parse_optional_str` from `src/server/server_group.rs`: a
missing key, the empty string and the literal `"null"` all give `None`. -/
def parse_optional_str (map : Smap) (key : String) : Except String (Option String) :=
  .ok ((mget map key).filter (fun x => !(x.isEmpty) && x != "null"))

/-- Outcome of running a Rust function that can panic: `panicked` models
an `assert_eq!` failure or an `unwrap` on `None`. -/
inductive PResult (α : Type) where
  | panicked : PResult α
  | err : String → PResult α
  | ok : α → PResult α
deriving DecidableEq, Repr

/-- Field-by-field body of `ServerGroup::from_hashmap` after the name has
been resolved and the prefix assertion has passed (the struct literal of
the source, each field in source order with `?` propagation). -/
def from_hashmap_fields (name : String) (map : Smap) : Except String ServerGroup := do
  let ram ← parse_u16 name map "ram"
  let cpu ← parse_u8 name map "cpu"
  let total_servers ← parse_u8 name map "totalServers"
  let joinable_servers ← parse_u8 name map "joinableServers"
  let port_section ← parse_u16 name map "portSection"
  let uptimes ← parse_optional_str map "uptimes"
  let arcade_group ← parse_bool_or_default name map "arcadeGroup"
  let world_zip ← parse_value name map "worldZip"
  let plugin ← parse_value name map "plugin"
  let config_path ← parse_value name map "configPath"
  let host ← parse_optional_str map "host"
  let min_players ← parse_u8 name map "minPlayers"
  let max_players ← parse_u8 name map "maxPlayers"
  let pvp ← parse_bool_or_default name map "pvp"
  let tournament ← parse_bool_or_default name map "tournament"
  let tournament_points ← parse_bool_or_default name map "tournamentPoints"
  let hard_max_player_cap ← parse_bool_or_default name map "hardMaxPlayerCap"
  let games ← parse_optional_str map "games"
  let modes ← parse_optional_str map "modes"
  let booster_group ← parse_optional_str map "boosterGroup"
  let server_type ← parse_value name map "serverType"
  let add_no_cheat ← parse_bool_or_default name map "addNoCheat"
  let add_world_edit ← parse_bool_or_default name map "addWorldEdit"
  let team_rejoin ← parse_bool_or_default name map "teamRejoin"
  let team_auto_join ← parse_bool_or_default name map "teamAutoJoin"
  let team_force_balance ← parse_bool_or_default name map "teamForceBalance"
  let game_auto_start ← parse_bool_or_default name map "gameAutoStart"
  let game_timeout ← parse_bool_or_default name map "gameTimeout"
  let game_voting ← parse_bool_or_default name map "gameVoting"
  let map_voting ← parse_bool_or_default name map "mapVoting"
  let reward_gems ← parse_bool_or_default name map "rewardGems"
  let reward_items ← parse_bool_or_default name map "rewardItems"
  let reward_stats ← parse_bool_or_default name map "rewardStats"
  let reward_achievements ← parse_bool_or_default name map "rewardAchievements"
  let hotbar_inventory ← parse_bool_or_default name map "hotbarInventory"
  let hotbar_hub_clock ← parse_bool_or_default name map "hotbarHubClock"
  let player_kick_idle ← parse_bool_or_default name map "playerKickIdle"
  let staff_only ← parse_bool_or_default name map "staffOnly"
  let whitelist ← parse_bool_or_default name map "whitelist"
  let resource_pack ← parse_optional_str map "resourcePack"
  let region ← Region.tryFrom ((parse_value name map "region").toOption.getD "US")
  let team_server_key ← parse_optional_str map "teamServerKey"
  let portal_bottom_corner_location ← parse_optional_str map "portalBottomCornerLocation"
  let portal_top_corner_location ← parse_optional_str map "portalTopCornerLocation"
  let npc_name ← parse_optional_str map "npcName"
  pure {
    name := name, prefixName := name, ram := ram, cpu := cpu,
    total_servers := total_servers, joinable_servers := joinable_servers,
    port_section := port_section, uptimes := uptimes,
    arcade_group := arcade_group, world_zip := world_zip, plugin := plugin,
    config_path := config_path, host := host, min_players := min_players,
    max_players := max_players, pvp := pvp, tournament := tournament,
    tournament_points := tournament_points,
    hard_max_player_cap := hard_max_player_cap, games := games,
    modes := modes, booster_group := booster_group,
    server_type := server_type, add_no_cheat := add_no_cheat,
    add_world_edit := add_world_edit, team_rejoin := team_rejoin,
    team_auto_join := team_auto_join,
    team_force_balance := team_force_balance,
    game_auto_start := game_auto_start, game_timeout := game_timeout,
    game_voting := game_voting, map_voting := map_voting,
    reward_gems := reward_gems, reward_items := reward_items,
    reward_stats := reward_stats,
    reward_achievements := reward_achievements,
    hotbar_inventory := hotbar_inventory,
    hotbar_hub_clock := hotbar_hub_clock,
    player_kick_idle := player_kick_idle, staff_only := staff_only,
    whitelist := whitelist, resource_pack := resource_pack,
    region := region, team_server_key := team_server_key,
    portal_bottom_corner_location := portal_bottom_corner_location,
    portal_top_corner_location := portal_top_corner_location,
    npc_name := npc_name }

/-- Model of `ServerGroup::from_hashmap`: empty-map check, `name` lookup, the
`assert_eq!(parse_value(&prefix, &map, "prefix")?, prefix)` statement
(whose failure is a panic, not an error), then the struct literal. -/
def from_hashmap (map : Smap) : PResult ServerGroup :=
  if misEmpty map then .err "ServerGroup not found."
  else
    match mget map "name" with
    | none => .err "ServerGroup name could not be found"
    | some name =>
      match parse_value name map "prefix" with
      | .error e => .err e
      | .ok v =>
        if v = name then
          match from_hashmap_fields name map with
          | .ok g => .ok g
          | .error e => .err e
        else .panicked

/-- Model of `ServerGroup::to_hashmap`: every field serialized in source order;
options render as `""` when absent, booleans as `"true"`/`"false"`,
integers in decimal, the region as its variant name. -/
def to_hashmap (g : ServerGroup) : Smap :=
  [("name", g.name),
   ("prefix", g.prefixName),
   ("ram", natToString g.ram),
   ("cpu", natToString g.cpu),
   ("totalServers", natToString g.total_servers),
   ("joinableServers", natToString g.joinable_servers),
   ("portSection", natToString g.port_section),
   ("uptimes", g.uptimes.getD ""),
   ("arcadeGroup", boolToString g.arcade_group),
   ("worldZip", g.world_zip),
   ("plugin", g.plugin),
   ("configPath", g.config_path),
   ("host", g.host.getD ""),
   ("minPlayers", natToString g.min_players),
   ("maxPlayers", natToString g.max_players),
   ("pvp", boolToString g.pvp),
   ("tournament", boolToString g.tournament),
   ("tournamentPoints", boolToString g.tournament_points),
   ("hardMaxPlayerCap", boolToString g.hard_max_player_cap),
   ("games", g.games.getD ""),
   ("modes", g.modes.getD ""),
   ("boosterGroup", g.booster_group.getD ""),
   ("serverType", g.server_type),
   ("addNoCheat", boolToString g.add_no_cheat),
   ("addWorldEdit", boolToString g.add_world_edit),
   ("teamRejoin", boolToString g.team_rejoin),
   ("teamAutoJoin", boolToString g.team_auto_join),
   ("teamForceBalance", boolToString g.team_force_balance),
   ("gameAutoStart", boolToString g.game_auto_start),
   ("gameTimeout", boolToString g.game_timeout),
   ("gameVoting", boolToString g.game_voting),
   ("mapVoting", boolToString g.map_voting),
   ("rewardGems", boolToString g.reward_gems),
   ("rewardItems", boolToString g.reward_items),
   ("rewardStats", boolToString g.reward_stats),
   ("rewardAchievements", boolToString g.reward_achievements),
   ("hotbarInventory", boolToString g.hotbar_inventory),
   ("hotbarHubClock", boolToString g.hotbar_hub_clock),
   ("playerKickIdle", boolToString g.player_kick_idle),
   ("staffOnly", boolToString g.staff_only),
   ("whitelist", boolToString g.whitelist),
   ("resourcePack", g.resource_pack.getD ""),
   ("region", Region.toStr g.region),
   ("teamServerKey", g.team_server_key.getD ""),
   ("portalBottomCornerLocation", g.portal_bottom_corner_location.getD ""),
   ("portalTopCornerLocation", g.portal_top_corner_location.getD ""),
   ("npcName", g.npc_name.getD "")]

/-- Property of an optional string field that serializes losslessly:
it is never `Some("")` and never `Some("null")`. -/
def StrOptOk : Option String → Prop
  | none => True
  | some s => ¬s = "" ∧ ¬s = "null"

instance (o : Option String) : Decidable (StrOptOk o) :=
  match o with
  | none => .isTrue trivial
  | some s => inferInstanceAs (Decidable (¬s = "" ∧ ¬s = "null"))

/-- Validity of a `ServerGroup` for the codec round-trip: the name equals
the prefix, every numeric field fits its Rust width (`u8`/`u16`), and no
optional string field is `Some("")` or `Some("null")`. -/
def ValidServerGroup (g : ServerGroup) : Prop :=
  g.name = g.prefixName ∧ g.ram ≤ 65535 ∧ g.cpu ≤ 255 ∧ g.total_servers ≤ 255 ∧
  g.joinable_servers ≤ 255 ∧ g.port_section ≤ 65535 ∧ g.min_players ≤ 255 ∧
  g.max_players ≤ 255 ∧ StrOptOk g.uptimes ∧ StrOptOk g.host ∧ StrOptOk g.games ∧
  StrOptOk g.modes ∧ StrOptOk g.booster_group ∧ StrOptOk g.resource_pack ∧
  StrOptOk g.team_server_key ∧ StrOptOk g.portal_bottom_corner_location ∧
  StrOptOk g.portal_top_corner_location ∧ StrOptOk g.npc_name

/-- Witness for C1 at a concrete valid group. -/
def wGroup : ServerGroup where
  name := "MIN"
  prefixName := "MIN"
  ram := 512
  cpu := 1
  total_servers := 0
  joinable_servers := 0
  port_section := 25565
  uptimes := none
  arcade_group := true
  world_zip := "arcade.zip"
  plugin := "Arcade.jar"
  config_path := "plugins/Arcade"
  host := none
  min_players := 8
  max_players := 24
  pvp := true
  tournament := false
  tournament_points := false
  hard_max_player_cap := false
  games := some "Micro,MixedArcade,Cards,Draw,Build,BuildMavericks,Tug"
  modes := none
  booster_group := none
  server_type := "Minigames"
  add_no_cheat := true
  add_world_edit := false
  team_rejoin := false
  team_auto_join := true
  team_force_balance := false
  game_auto_start := true
  game_timeout := true
  game_voting := false
  map_voting := true
  reward_gems := true
  reward_items := true
  reward_stats := true
  reward_achievements := true
  hotbar_inventory := true
  hotbar_hub_clock := true
  player_kick_idle := true
  staff_only := false
  whitelist := false
  resource_pack := none
  region := .US
  team_server_key := none
  portal_bottom_corner_location := none
  portal_top_corner_location := none
  npc_name := some "Mixed Arcade"

/-! ## Port allocator (`src/game/options.rs`, `src/server/server_group.rs`)

`GameOptions::check_port_section_conflicts` is the collision predicate;
`ServerGroup::get_all_other_port_sections` builds the comparison set;
`ServerGroup::create` reconciles and persists.  The `+ 10` additions are
`u16` additions and wrap (release mode).
-/

/-- Model of `GameOptions::check_port_section_conflicts` from `src/game/options.rs`:
`true` when the candidate section conflicts with any cached section. -/
def check_port_section_conflicts (port_section : Nat) (cached_ports : List Nat) : Bool :=
  cached_ports.any (fun cached_port =>
    (decide (port_section < cached_port) && decide (cached_port ≤ u16add port_section 10))
    || (decide (cached_port < port_section) && decide (port_section ≤ u16add cached_port 10))
    || (cached_port == port_section))

/-- Model of `ServerGroup::get_all_other_port_sections` from
`src/server/server_group.rs`.  The source construct
`filter_map(|sg| Some(sg.name != self.name).map(|_| sg.port_section))`
is reproduced literally: the closure wraps the name comparison in `Some`
and then maps it away, so it returns `Some(sg.port_section)` for every
cached group. -/
def get_all_other_port_sections (self : ServerGroup) (cache : List ServerGroup) : List Nat :=
  cache.filterMap (fun sg => (some (sg.name != self.name)).map (fun _ => sg.port_section))

/-- A group with its port section replaced (the effect of the reroll loop
writing `self.port_section`). -/
def withPort (g : ServerGroup) (p : Nat) : ServerGroup := { g with port_section := p }

/-- One successful `ServerGroup::create` call (`src/server/server_group.rs`).
If a group with the same prefix is already cached, only the side set is
touched and the cache of hashes is unchanged.  Otherwise
`eliminate_port_collisions` runs: `reset_port_section_if_invalid` keeps the
group own section if the conflict check passes and otherwise rerolls
uniformly in `[25566, 26001)` until the check passes, and the result is
written.  The final port is existentially quantified, constrained exactly
by the loop guard. -/
inductive CreateStep : List ServerGroup → ServerGroup → List ServerGroup → Prop where
  | existing {cache : List ServerGroup} {g : ServerGroup} :
      (∃ h ∈ cache, h.prefixName = g.prefixName) →
      CreateStep cache g cache
  | fresh {cache : List ServerGroup} {g : ServerGroup} {p : Nat} :
      (¬ ∃ h ∈ cache, h.prefixName = g.prefixName) →
      (p = g.port_section ∨ (25566 ≤ p ∧ p < 26001)) →
      check_port_section_conflicts p (get_all_other_port_sections (withPort g p) cache) = false →
      CreateStep cache g (cache ++ [withPort g p])

/-- A sequence of successful `create` calls, each for a group satisfying
`P` (used to state side conditions on the groups a scenario feeds in). -/
inductive CreateSeq (P : ServerGroup → Prop) : List ServerGroup → List ServerGroup → Prop where
  | refl {c : List ServerGroup} : CreateSeq P c c
  | step {c c2 c3 : List ServerGroup} {g : ServerGroup} :
      CreateSeq P c c2 → P g → CreateStep c2 g c3 → CreateSeq P c c3

/-- Two groups port sections differ by more than 10. -/
def portsApart (a b : ServerGroup) : Prop :=
  a.port_section + 10 < b.port_section ∨ b.port_section + 10 < a.port_section

/-- Cache invariant: every pair of distinct cached groups has port
sections that differ by more than 10. -/
def PortsOk (cache : List ServerGroup) : Prop := cache.Pairwise portsApart

/-- Helper groups for concrete scenarios: rename and move `wGroup`. -/
def groupNamed (nm : String) (p : Nat) : ServerGroup :=
  { wGroup with name := nm, prefixName := nm, port_section := p }

/-! ## Panics in `from_hashmap` and `load_existing_cache` -/

/-- A well-formed map whose `"prefix"` value (`"B"`) differs from its
`"name"` value (`"A"`); every required key is present. -/
def mismatchMap : Smap :=
  (to_hashmap (groupNamed "A" 25565)).map
    (fun kv => if kv.1 == "prefix" then ("prefix", "B") else kv)

/-- Cache lookup of `servergroups.{prefix}` followed by `from_hashmap`,
with the error discarded by `.ok()`: `none` exactly when no group with
that prefix is cached. -/
def get_cached_group (cache : List ServerGroup) (p : String) : Option ServerGroup :=
  List.find? (fun h => h.prefixName == p) cache

/-- Model of `ServerGroup::load_existing_cache` from `src/server/server_group.rs`.
The source construct `if cached.is_none() { () }` is an expression statement that
evaluates to unit and does not return from the function, so control
always reaches `*self = cached.unwrap().clone()`, which panics when
`cached` is `None`. -/
def load_existing_cache (self : ServerGroup) (cache : List ServerGroup) : PResult ServerGroup :=
  let cached : Option ServerGroup := get_cached_group cache self.prefixName
  match cached with
  | none => .panicked
  | some c => .ok c

/-! ## Game catalog (`src/main.rs` lines 220-435)

The module files `src/game/type.rs` and `src/game/utils.rs` are not part
of the provided sources; `src/main.rs` declares the same `GameType`
enumeration and catalog tables, and those declarations are embedded here.
-/

/-- The `GameType` enumeration, in source declaration order. -/
inductive GameType where
  | Micro | MixedArcade | Cards | Draw | Build | BuildMavericks | Tug
  | TurfWars | UHC | UHCSolo | UHCSoloSpeed | UHCTeamsSpeed | SpeedBuilders
  | Valentines | Skyfall | SkyfallTeams | HideSeek | CakeWarsDuos | CakeWars4
  | SurvivalGames | SurvivalGamesTeams | Skywars | SkywarsTeams | MonsterMaze
  | MonsterLeague | Bridges | MineStrike | Smash | SmashDominate | SmashTeams
  | SmashTraining | ChampionsCTF | BouncyBalls | Gladiators | TypeWars
  | ChampionsDominate | ChampionsTDM | Christmas | ChristmasNew | Clans
  | ClansHub | BaconBrawl | Barbarians | Basketball | QuiverPayload
  | StrikeGames | AlienInvasion | MOBA | MOBATraining | BattleRoyale
  | BossBattles | BawkBawkBattles | Brawl | CastleAssault | CastleAssaultTDM
  | CastleSiege | DeathTag | DragonEscape | DragonEscapeTeams | DragonRiders
  | Dragons | Event | Evolution | ElytraRings | Gravity | GemHunters
  | Halloween | Halloween2016 | HoleInTheWall | Horse | MilkCow | NanoGames
  | Lobbers | MinecraftLeague | OldMineWare | Paintball | Quiver
  | QuiverTeams | Runner | SearchAndDestroy | Sheep | Snake
  | SneakyAssassins | SnowFight | Spleef | SpleefTeams | SquidShooter
  | Stacker | WitherAssault | Wizards | ZombieSurvival
deriving DecidableEq, Repr

/-- Display for `GameType` (strum derive: the variant name). -/
def GameType.name : GameType → String
  | .Micro => "Micro" | .MixedArcade => "MixedArcade" | .Cards => "Cards"
  | .Draw => "Draw" | .Build => "Build" | .BuildMavericks => "BuildMavericks"
  | .Tug => "Tug" | .TurfWars => "TurfWars" | .UHC => "UHC"
  | .UHCSolo => "UHCSolo" | .UHCSoloSpeed => "UHCSoloSpeed"
  | .UHCTeamsSpeed => "UHCTeamsSpeed" | .SpeedBuilders => "SpeedBuilders"
  | .Valentines => "Valentines" | .Skyfall => "Skyfall"
  | .SkyfallTeams => "SkyfallTeams" | .HideSeek => "HideSeek"
  | .CakeWarsDuos => "CakeWarsDuos" | .CakeWars4 => "CakeWars4"
  | .SurvivalGames => "SurvivalGames" | .SurvivalGamesTeams => "SurvivalGamesTeams"
  | .Skywars => "Skywars" | .SkywarsTeams => "SkywarsTeams"
  | .MonsterMaze => "MonsterMaze" | .MonsterLeague => "MonsterLeague"
  | .Bridges => "Bridges" | .MineStrike => "MineStrike" | .Smash => "Smash"
  | .SmashDominate => "SmashDominate" | .SmashTeams => "SmashTeams"
  | .SmashTraining => "SmashTraining" | .ChampionsCTF => "ChampionsCTF"
  | .BouncyBalls => "BouncyBalls" | .Gladiators => "Gladiators"
  | .TypeWars => "TypeWars" | .ChampionsDominate => "ChampionsDominate"
  | .ChampionsTDM => "ChampionsTDM" | .Christmas => "Christmas"
  | .ChristmasNew => "ChristmasNew" | .Clans => "Clans"
  | .ClansHub => "ClansHub" | .BaconBrawl => "BaconBrawl"
  | .Barbarians => "Barbarians" | .Basketball => "Basketball"
  | .QuiverPayload => "QuiverPayload" | .StrikeGames => "StrikeGames"
  | .AlienInvasion => "AlienInvasion" | .MOBA => "MOBA"
  | .MOBATraining => "MOBATraining" | .BattleRoyale => "BattleRoyale"
  | .BossBattles => "BossBattles" | .BawkBawkBattles => "BawkBawkBattles"
  | .Brawl => "Brawl" | .CastleAssault => "CastleAssault"
  | .CastleAssaultTDM => "CastleAssaultTDM" | .CastleSiege => "CastleSiege"
  | .DeathTag => "DeathTag" | .DragonEscape => "DragonEscape"
  | .DragonEscapeTeams => "DragonEscapeTeams" | .DragonRiders => "DragonRiders"
  | .Dragons => "Dragons" | .Event => "Event" | .Evolution => "Evolution"
  | .ElytraRings => "ElytraRings" | .Gravity => "Gravity"
  | .GemHunters => "GemHunters" | .Halloween => "Halloween"
  | .Halloween2016 => "Halloween2016" | .HoleInTheWall => "HoleInTheWall"
  | .Horse => "Horse" | .MilkCow => "MilkCow" | .NanoGames => "NanoGames"
  | .Lobbers => "Lobbers" | .MinecraftLeague => "MinecraftLeague"
  | .OldMineWare => "OldMineWare" | .Paintball => "Paintball"
  | .Quiver => "Quiver" | .QuiverTeams => "QuiverTeams" | .Runner => "Runner"
  | .SearchAndDestroy => "SearchAndDestroy" | .Sheep => "Sheep"
  | .Snake => "Snake" | .SneakyAssassins => "SneakyAssassins"
  | .SnowFight => "SnowFight" | .Spleef => "Spleef"
  | .SpleefTeams => "SpleefTeams" | .SquidShooter => "SquidShooter"
  | .Stacker => "Stacker" | .WitherAssault => "WitherAssault"
  | .Wizards => "Wizards" | .ZombieSurvival => "ZombieSurvival"

set_option maxHeartbeats 1000000 in

/-- Iteration order of `GameType` (strum `EnumIter`: declaration order). -/
def GameType.iterList : List GameType :=
  [.Micro, .MixedArcade, .Cards, .Draw, .Build, .BuildMavericks, .Tug,
   .TurfWars, .UHC, .UHCSolo, .UHCSoloSpeed, .UHCTeamsSpeed, .SpeedBuilders,
   .Valentines, .Skyfall, .SkyfallTeams, .HideSeek, .CakeWarsDuos, .CakeWars4,
   .SurvivalGames, .SurvivalGamesTeams, .Skywars, .SkywarsTeams, .MonsterMaze,
   .MonsterLeague, .Bridges, .MineStrike, .Smash, .SmashDominate, .SmashTeams,
   .SmashTraining, .ChampionsCTF, .BouncyBalls, .Gladiators, .TypeWars,
   .ChampionsDominate, .ChampionsTDM, .Christmas, .ChristmasNew, .Clans,
   .ClansHub, .BaconBrawl, .Barbarians, .Basketball, .QuiverPayload,
   .StrikeGames, .AlienInvasion, .MOBA, .MOBATraining, .BattleRoyale,
   .BossBattles, .BawkBawkBattles, .Brawl, .CastleAssault, .CastleAssaultTDM,
   .CastleSiege, .DeathTag, .DragonEscape, .DragonEscapeTeams, .DragonRiders,
   .Dragons, .Event, .Evolution, .ElytraRings, .Gravity, .GemHunters,
   .Halloween, .Halloween2016, .HoleInTheWall, .Horse, .MilkCow, .NanoGames,
   .Lobbers, .MinecraftLeague, .OldMineWare, .Paintball, .Quiver,
   .QuiverTeams, .Runner, .SearchAndDestroy, .Sheep, .Snake,
   .SneakyAssassins, .SnowFight, .Spleef, .SpleefTeams, .SquidShooter,
   .Stacker, .WitherAssault, .Wizards, .ZombieSurvival]

/-- strum `EnumString` for `GameType`: parse by exact variant name. -/
def GameType.fromStr (s : String) : Option GameType :=
  List.find? (fun g => GameType.name g == s) GameType.iterList

/-- The `BoosterGroup` enumeration from `src/game/booster_group.rs`. -/
inductive BoosterGroup where
  | Arcade | Draw_My_Thing | Master_Builders | Speed_Builders | Block_Hunt
  | Cake_Wars | Survival_Games | Skywars | Bridges | MineStrike | Smash_Mobs
  | Champions | Nano_Games
deriving DecidableEq, Repr

/-- Display for `BoosterGroup` (strum derive: the variant name). -/
def BoosterGroup.toStr : BoosterGroup → String
  | .Arcade => "Arcade" | .Draw_My_Thing => "Draw_My_Thing"
  | .Master_Builders => "Master_Builders" | .Speed_Builders => "Speed_Builders"
  | .Block_Hunt => "Block_Hunt" | .Cake_Wars => "Cake_Wars"
  | .Survival_Games => "Survival_Games" | .Skywars => "Skywars"
  | .Bridges => "Bridges" | .MineStrike => "MineStrike"
  | .Smash_Mobs => "Smash_Mobs" | .Champions => "Champions"
  | .Nano_Games => "Nano_Games"

/-- strum `EnumString` for `BoosterGroup`: parse by exact variant name. -/
def BoosterGroup.fromStr (s : String) : Option BoosterGroup :=
  [BoosterGroup.Arcade, .Draw_My_Thing, .Master_Builders, .Speed_Builders,
   .Block_Hunt, .Cake_Wars, .Survival_Games, .Skywars, .Bridges, .MineStrike,
   .Smash_Mobs, .Champions, .Nano_Games].find? (fun b => BoosterGroup.toStr b == s)

/-- Model of `GAME_TO_NPC` table. -/
def GAME_TO_NPC : GameType → Option String
  | .Build => some "Master Builders"
  | .Draw => some "Draw My Thing"
  | .Micro => some "Micro Battles"
  | .MixedArcade => some "Mixed Arcade"
  | .TurfWars => some "Turf Wars"
  | .SpeedBuilders => some "Speed Builders"
  | .HideSeek => some "Block Hunt"
  | .CakeWars4 => some "Cake Wars"
  | .SurvivalGames => some "Survival Games"
  | .Skywars => some "Skywars"
  | .Bridges => some "The Bridges"
  | .MineStrike => some "Mine-Strike"
  | .Smash => some "Super Smash Mobs"
  | .Clans => some "Clans"
  | .ClansHub => some "ClansHub"
  | _ => none

/-- Model of `GAME_TO_BOOSTER_GROUP` table.  The source lists `MineStrike` twice
(`Arcade`, then `MineStrike`); `HashMap::from` keeps the last entry. -/
def GAME_TO_BOOSTER_GROUP : GameType → Option BoosterGroup
  | .Micro => some .Arcade
  | .Draw => some .Draw_My_Thing
  | .MineStrike => some .MineStrike
  | .TurfWars => some .Arcade
  | .Build => some .Master_Builders
  | .SpeedBuilders => some .Speed_Builders
  | .HideSeek => some .Block_Hunt
  | .CakeWarsDuos => some .Cake_Wars
  | .CakeWars4 => some .Cake_Wars
  | .SurvivalGames => some .Survival_Games
  | .SurvivalGamesTeams => some .Survival_Games
  | .Skywars => some .Skywars
  | .SkywarsTeams => some .Skywars
  | .Bridges => some .Bridges
  | .Smash => some .Smash_Mobs
  | .SmashTeams => some .Smash_Mobs
  | .ChampionsDominate => some .Champions
  | .ChampionsCTF => some .Champions
  | _ => none

/-- Model of `GAME_TO_PLAYER_COUNT` table: `(min_players, max_players)`. -/
def GAME_TO_PLAYER_COUNT : GameType → Option (Nat × Nat)
  | .Micro => some (8, 16)
  | .MixedArcade => some (8, 24)
  | .Draw => some (5, 8)
  | .Build => some (8, 12)
  | .TurfWars => some (8, 16)
  | .SpeedBuilders => some (4, 8)
  | .HideSeek => some (12, 24)
  | .CakeWarsDuos => some (10, 16)
  | .CakeWars4 => some (10, 16)
  | .SurvivalGames => some (12, 24)
  | .SurvivalGamesTeams => some (12, 24)
  | .Skywars => some (8, 12)
  | .SkywarsTeams => some (8, 12)
  | .Bridges => some (20, 40)
  | .MineStrike => some (8, 16)
  | .Smash => some (4, 6)
  | .SmashTeams => some (4, 6)
  | .ChampionsDominate => some (8, 10)
  | .ChampionsCTF => some (10, 16)
  | .Clans => some (1, 50)
  | .ClansHub => some (1, 50)
  | _ => none

/-- Model of `GAME_TO_SERVER_PREFIX` table (named with a `_MAP` suffix here). -/
def GAME_TO_SERVER_PREFIX_MAP : GameType → Option String
  | .Micro => some "MB"
  | .MixedArcade => some "MIN"
  | .Draw => some "DMT"
  | .Build => some "BLD"
  | .TurfWars => some "TF"
  | .SpeedBuilders => some "SB"
  | .HideSeek => some "BH"
  | .CakeWarsDuos => some "CW2"
  | .CakeWars4 => some "CW4"
  | .SurvivalGames => some "HG"
  | .SurvivalGamesTeams => some "SG2"
  | .Skywars => some "SKY"
  | .SkywarsTeams => some "SKY2"
  | .Bridges => some "BR"
  | .MineStrike => some "MS"
  | .Smash => some "SSM"
  | .SmashTeams => some "SSM2"
  | .ChampionsDominate => some "DOM"
  | .ChampionsCTF => some "CTF"
  | .Clans => some "Clans"
  | .ClansHub => some "ClansHub"
  | _ => none

/-- Model of `SERVER_PREFIX_TO_GAME` table. -/
def SERVER_PREFIX_TO_GAME (s : String) : Option GameType :=
  if s = "MB" then some .Micro
  else if s = "MIN" then some .MixedArcade
  else if s = "DMT" then some .Draw
  else if s = "BLD" then some .Build
  else if s = "TF" then some .TurfWars
  else if s = "SB" then some .SpeedBuilders
  else if s = "BH" then some .HideSeek
  else if s = "CW2" then some .CakeWarsDuos
  else if s = "CW4" then some .CakeWars4
  else if s = "HG" then some .SurvivalGames
  else if s = "SG2" then some .SurvivalGamesTeams
  else if s = "SKY" then some .Skywars
  else if s = "SKY2" then some .SkywarsTeams
  else if s = "BR" then some .Bridges
  else if s = "MS" then some .MineStrike
  else if s = "SSM" then some .Smash
  else if s = "SSM2" then some .SmashTeams
  else if s = "DOM" then some .ChampionsDominate
  else if s = "CTF" then some .ChampionsCTF
  else if s = "Clans" then some .Clans
  else if s = "ClansHub" then some .ClansHub
  else none

/-- Model of `GAME_TO_TEAM_SERVER` table. -/
def GAME_TO_TEAM_SERVER : GameType → Option GameType
  | .Skywars => some .SkywarsTeams
  | .SurvivalGames => some .SurvivalGamesTeams
  | .Smash => some .SmashTeams
  | .ChampionsDominate => some .ChampionsCTF
  | .CakeWars4 => some .CakeWarsDuos
  | _ => none

/-! ## Options builder (`src/game/options.rs`) -/

/-- The `GameOptions` struct from `src/game/options.rs` (the `prefix`
field is called `prefixName`, as in `ServerGroup`). -/
structure GameOptions where
  prefixName : String
  staff_only : Bool
  whitelist : Bool
  host : Option String
  min_players : Nat
  max_players : Nat
  port_section : Nat
  arcade_group : Bool
  world_zip : String
  plugin : String
  config_path : String
  pvp : Bool
  tournament : Bool
  tournament_points : Bool
  games : Option String
  server_type : String
  add_no_cheat : Bool
  add_world_edit : Bool
  team_rejoin : Bool
  team_auto_join : Bool
  team_force_balance : Bool
  game_auto_start : Bool
  game_timeout : Bool
  game_voting : Bool
  map_voting : Bool
  reward_gems : Bool
  reward_items : Bool
  reward_stats : Bool
  reward_achievements : Bool
  hotbar_inventory : Bool
  hotbar_hub_clock : Bool
  player_kick_idle : Bool
  team_server : Option GameType
  booster_group : Option BoosterGroup
  npc_name : Option String
  resource_pack : Option String
  region : Region
  portal_bottom_corner_location : Option String
  portal_top_corner_location : Option String
deriving DecidableEq, Repr

/-- Modelled from the spec: the options builder of §4.B resolves every
field from the cached group or from the catalog defaults and hard-coded
literals; it has no per-game override table.  The `CUSTOM_GAME_OPTIONS`
table referenced by `src/game/options.rs` lives in `src/game/utils.rs`,
which is absent from the provided sources, so it is modelled as the empty
lookup. -/
def CUSTOM_GAME_OPTIONS : GameType → Option GameOptions := fun _ => none

/-- Result constraint of `GameOptions::rnd_port` (`src/game/options.rs`):
the loop samples uniformly in `[25565, 26001)` until the sample does not
conflict with any cached port section. -/
def rnd_port_spec (cachedPorts : List Nat) (p : Nat) : Prop :=
  25565 ≤ p ∧ p < 26001 ∧ check_port_section_conflicts p cachedPorts = false

/-- The comma-joined list of the first seven `GameType` values in
iteration order (the `games` default for `MixedArcade`). -/
def mixedArcadeGames : String :=
  (GameType.iterList.take 7).foldl
    (fun a b => if a.isEmpty then GameType.name b else a ++ "," ++ GameType.name b) ""

/-- Model of `TryFrom<GameType> for GameOptions` (`src/game/options.rs`), as a
function of the cached group for the game prefix (`None` when the cache
holds no parseable group) and of the port `rnd` produced by `rnd_port`.
When a custom options entry exists and nothing is cached, the custom
options are returned with the fresh port; otherwise every field is
resolved from the cached group or its default. -/
def game_options_try_from (game : GameType) (cached : Option ServerGroup) (rnd : Nat) :
    GameOptions :=
  match CUSTOM_GAME_OPTIONS game, cached with
  | some options, none => { options with port_section := rnd }
  | _, _ =>
    let mm : Nat × Nat := cached.elim ((GAME_TO_PLAYER_COUNT game).getD (8, 16))
      (fun data => (data.min_players, data.max_players))
    { prefixName := (GAME_TO_SERVER_PREFIX_MAP game).getD ""
      staff_only := cached.elim false (fun data => data.staff_only)
      whitelist := cached.elim false (fun data => data.whitelist)
      host := (cached.bind (fun data => data.host)).filter (fun x => !x.isEmpty)
      min_players := mm.1
      max_players := mm.2
      port_section := cached.elim rnd (fun data => data.port_section)
      arcade_group := cached.elim true (fun data => data.arcade_group)
      world_zip := cached.elim "arcade.zip" (fun data => data.world_zip)
      plugin := cached.elim "Arcade.jar" (fun data => data.plugin)
      config_path := cached.elim "plugins/Arcade" (fun data => data.config_path)
      pvp := cached.elim true (fun data => data.pvp)
      tournament := cached.elim false (fun data => data.tournament)
      tournament_points := cached.elim false (fun data => data.tournament_points)
      games := cached.elim
        (match game with
         | .MixedArcade => some mixedArcadeGames
         | g => some (GameType.name g))
        (fun data => data.games.filter (fun x => !x.isEmpty && x != "null"))
      server_type := cached.elim "Minigames" (fun data => data.server_type)
      add_no_cheat := cached.elim true (fun data => data.add_no_cheat)
      add_world_edit := cached.elim false (fun data => data.add_world_edit)
      team_rejoin := cached.elim false (fun data => data.team_rejoin)
      team_auto_join := cached.elim true (fun data => data.team_auto_join)
      team_force_balance := cached.elim false (fun data => data.team_force_balance)
      game_auto_start := cached.elim true (fun data => data.game_auto_start)
      game_timeout := cached.elim true (fun data => data.game_timeout)
      game_voting := cached.elim false (fun data => data.game_voting)
      map_voting := cached.elim true (fun data => data.map_voting)
      reward_gems := cached.elim true (fun data => data.reward_gems)
      reward_items := cached.elim true (fun data => data.reward_items)
      reward_stats := cached.elim true (fun data => data.reward_stats)
      reward_achievements := cached.elim true (fun data => data.reward_achievements)
      hotbar_inventory := cached.elim true (fun data => data.hotbar_inventory)
      hotbar_hub_clock := cached.elim true (fun data => data.hotbar_hub_clock)
      player_kick_idle := cached.elim true (fun data => data.player_kick_idle)
      team_server := cached.elim (GAME_TO_TEAM_SERVER game)
        (fun data => data.team_server_key.bind (fun k => SERVER_PREFIX_TO_GAME k))
      booster_group := cached.elim (GAME_TO_BOOSTER_GROUP game)
        (fun data => data.booster_group.bind (fun s => BoosterGroup.fromStr s))
      npc_name := cached.elim (GAME_TO_NPC game)
        (fun data => data.npc_name.filter (fun x => !x.isEmpty))
      resource_pack := (cached.bind (fun data => data.resource_pack)).filter
        (fun x => !x.isEmpty)
      region := cached.elim .US (fun data => data.region)
      portal_bottom_corner_location :=
        (cached.bind (fun data => data.portal_bottom_corner_location)).filter
          (fun x => !x.isEmpty)
      portal_top_corner_location :=
        (cached.bind (fun data => data.portal_top_corner_location)).filter
          (fun x => !x.isEmpty) }

/-! ## Instance status (`src/server/minecraft.rs`) -/

/-- A `serde_json::Value`.  `int n` is a JSON number holding the integer
`n` (possibly outside `i64`, e.g. a large `u64`); `float` is a number
that is not an integer; `arr` and `null` carry no payload because no
embedded function inspects them further. -/
inductive Json where
  | str (s : String)
  | int (n : Int)
  | float
  | obj (entries : List (String × Json))
  | arr
  | jbool (b : Bool)
  | null
deriving Repr

/-- Lookup in a JSON object (`serde_json::Map::get`). -/
def jget (m : List (String × Json)) (key : String) : Option Json :=
  (List.find? (fun p => p.1 == key) m).map (fun p => p.2)

/-- Model of `serde_json::Value::as_i64`: defined exactly on numbers representable
as `i64`. -/
def json_as_i64 : Json → Option Int
  | .int n =>
    if -9223372036854775808 ≤ n ∧ n ≤ 9223372036854775807 then some n else none
  | _ => none

/-- Whether a JSON value is a `Value::Number`. -/
def jIsNumber : Json → Bool
  | .int _ => true
  | .float => true
  | _ => false

/-- Model of `json_to_map` from `src/server/minecraft.rs`. -/
def json_to_map (value : Json) : Except String (List (String × Json)) :=
  match value with
  | .obj m => .ok m
  | _ => .error "Object not recognized"

/-- Model of `parse_string_from_map` from `src/server/minecraft.rs`. -/
def parse_string_from_map (m : List (String × Json)) (key : String) : Except String String :=
  match jget m key with
  | some (.str v) => .ok v
  | some _ => .error ("could not parse " ++ key ++ " (expected string)")
  | none => .error ("could not find key " ++ key)

/-- Model of `parse_optional_string_from_map` from `src/server/minecraft.rs`: any
non-string (or missing) value silently becomes `None`. -/
def parse_optional_string_from_map (m : List (String × Json)) (key : String) : Option String :=
  match jget m key with
  | some (.str v) => some v
  | some _ => none
  | none => none

/-- Model of `parse_number_as_i64` from `src/server/minecraft.rs`. -/
def parse_number_as_i64 (key : String) (value : Json) : Except String Int :=
  match json_as_i64 value with
  | some n => .ok n
  | none => .error ("Failed to convert " ++ key ++ " to i64")

/-- Model of `parse_u64_from_map` from `src/server/minecraft.rs`: on a `Number`
key, `as_i64` then `as u64` (a plain cast, no range check). -/
def parse_u64_from_map (m : List (String × Json)) (key : String) : Except String Nat :=
  match jget m key with
  | some v =>
    if jIsNumber v then
      match parse_number_as_i64 key v with
      | .ok num => .ok (i64ToU64 num)
      | .error e => .error ("Could not parse " ++ key ++ " into u64: " ++ e)
    else .error ("Could not parse " ++ key ++ " (expected Number)")
  | none => .error ("Could not find key " ++ key)

/-- Model of `parse_u16_from_map` from `src/server/minecraft.rs`: on a `Number`
key, `as_i64` then `as u16` (a plain truncating cast, no range check). -/
def parse_u16_from_map (m : List (String × Json)) (key : String) : Except String Nat :=
  match jget m key with
  | some v =>
    if jIsNumber v then
      match parse_number_as_i64 key v with
      | .ok num => .ok (i64ToU16 num)
      | .error e => .error ("Could not parse " ++ key ++ " into u16: " ++ e)
    else .error ("Could not parse " ++ key ++ " (expected Number)")
  | none => .error ("Could not find key " ++ key)

/-- Model of `parse_u8_from_map` from `src/server/minecraft.rs`: on a `Number`
key, `as_i64` then `as u8` (a plain truncating cast, no range check). -/
def parse_u8_from_map (m : List (String × Json)) (key : String) : Except String Nat :=
  match jget m key with
  | some v =>
    if jIsNumber v then
      match parse_number_as_i64 key v with
      | .ok num => .ok (i64ToU8 num)
      | .error e => .error ("Could not parse " ++ key ++ " into u8: " ++ e)
    else .error ("Could not parse " ++ key ++ " (expected Number)")
  | none => .error ("Could not find key " ++ key)

/-- Rust `i64 as i8` cast: twos-complement reinterpretation of the low
8 bits. -/
def i64ToI8 (n : Int) : Int := (n + 128) % 256 - 128

/-- Model of `parse_i8_from_map` from `src/server/minecraft.rs`. -/
def parse_i8_from_map (m : List (String × Json)) (key : String) : Except String Int :=
  match jget m key with
  | some v =>
    if jIsNumber v then
      match parse_number_as_i64 key v with
      | .ok num => .ok (i64ToI8 num)
      | .error e => .error ("could not parse " ++ key ++ " into i8: " ++ e)
    else .error ("could not parse " ++ key ++ " (expected Number)")
  | none => .error ("could not find key " ++ key)

/-- Model of `GameDisplayStatus` from `src/server/minecraft.rs`. -/
inductive GameDisplayStatus where
  | ALWAYS_OPEN | STARTING | VOTING | WAITING | IN_PROGRESS | CLOSING
deriving DecidableEq, Repr

/-- strum `EnumString` for `GameDisplayStatus`. -/
def GameDisplayStatus.fromStr (s : String) : Option GameDisplayStatus :=
  if s = "ALWAYS_OPEN" then some .ALWAYS_OPEN
  else if s = "STARTING" then some .STARTING
  else if s = "VOTING" then some .VOTING
  else if s = "WAITING" then some .WAITING
  else if s = "IN_PROGRESS" then some .IN_PROGRESS
  else if s = "CLOSING" then some .CLOSING
  else none

/-- Model of `GameJoinStatus` from `src/server/minecraft.rs`. -/
inductive GameJoinStatus where
  | OPEN | RANKS_ONLY | CLOSED
deriving DecidableEq, Repr

/-- strum `EnumString` for `GameJoinStatus`. -/
def GameJoinStatus.fromStr (s : String) : Option GameJoinStatus :=
  if s = "OPEN" then some .OPEN
  else if s = "RANKS_ONLY" then some .RANKS_ONLY
  else if s = "CLOSED" then some .CLOSED
  else none

/-- Model of `parse_game_type` from `src/server/minecraft.rs`. -/
def parse_game_type (m : List (String × Json)) (key : String) : Except String GameType :=
  match jget m key with
  | some (.str nm) =>
    match GameType.fromStr nm with
    | some g => .ok g
    | none => .error ("GameType " ++ nm ++ " not found")
  | some _ => .error ("could not parse " ++ key ++ " (expected string)")
  | none => .error ("could not find key " ++ key)

/-- Model of `parse_display_status_from_map` from `src/server/minecraft.rs`. -/
def parse_display_status_from_map (m : List (String × Json)) (key : String) :
    Except String GameDisplayStatus := do
  let s ← parse_string_from_map m key
  match GameDisplayStatus.fromStr s with
  | some v => pure v
  | none => .error ("could not parse " ++ key ++ " (Expected GameDisplayStatus)")

/-- Model of `parse_join_status_from_map` from `src/server/minecraft.rs`. -/
def parse_join_status_from_map (m : List (String × Json)) (key : String) :
    Except String GameJoinStatus := do
  let s ← parse_string_from_map m key
  match GameJoinStatus.fromStr s with
  | some v => pure v
  | none => .error ("could not parse " ++ key ++ " (Expected GameJoinStatus)")

/-- Model of `GameInfo` from `src/server/minecraft.rs`. -/
structure GameInfo where
  game : GameType
  mode : Option String
  map : Option String
  timer : Int
  voting_on : Option String
  host_rank : Option String
  display_status : GameDisplayStatus
  join_status : GameJoinStatus
deriving DecidableEq, Repr

/-- Model of `ServerMotd` from `src/server/minecraft.rs`. -/
inductive ServerMotd where
  | GameMotd (info : GameInfo)
  | Motd (s : String)
deriving DecidableEq, Repr

/-- Model of `GameInfo::parse_motd` from `src/server/minecraft.rs`. -/
def GameInfo.parse_motd (m : List (String × Json)) : Except String ServerMotd := do
  let game ← parse_game_type m "_game"
  let mode := parse_optional_string_from_map m "_mode"
  let map := parse_optional_string_from_map m "_map"
  let timer ← parse_i8_from_map m "_timer"
  let voting_on := parse_optional_string_from_map m "_votingOn"
  let host_rank := parse_optional_string_from_map m "_hostRank"
  let display_status ← parse_display_status_from_map m "_status"
  let join_status ← parse_join_status_from_map m "_joinable"
  pure (.GameMotd {
    game := game, mode := mode, map := map, timer := timer,
    voting_on := voting_on, host_rank := host_rank,
    display_status := display_status, join_status := join_status })

/-- Model of `parse_json_motd` from `src/server/minecraft.rs`: a string becomes a
plain `Motd`, an object parses as a `GameInfo`. -/
def parse_json_motd (m : List (String × Json)) (key : String) : Except String ServerMotd :=
  match jget m key with
  | some (.str s) => .ok (.Motd s)
  | some (.obj m2) => GameInfo.parse_motd m2
  | some _ => .error ("could not parse " ++ key ++ " into MotdJson")
  | none => .error ("could not find key " ++ key ++ " while parsing MotdJson")

/-- Model of `MinecraftServer` from `src/server/minecraft.rs`.  `start_up_date` is
seconds since epoch, `current_time` milliseconds since epoch (both `u64`). -/
structure MinecraftServer where
  name : String
  group : String
  motd : ServerMotd
  player_count : Nat
  max_player_count : Nat
  tps : Nat
  ram : Nat
  max_ram : Nat
  public_address : String
  port : Nat
  donors_online : Nat
  start_up_date : Nat
  current_time : Nat
deriving DecidableEq, Repr

/-- Model of `TryFrom<serde_json::Value> for MinecraftServer`: field parses in
source order, the first failure propagating. -/
def minecraft_try_from (v : Json) : Except String MinecraftServer := do
  let m ← json_to_map v
  let name ← parse_string_from_map m "_name"
  let group ← parse_string_from_map m "_group"
  let motd ← parse_json_motd m "_motd"
  let player_count ← parse_u8_from_map m "_playerCount"
  let max_player_count ← parse_u8_from_map m "_maxPlayerCount"
  let tps ← parse_u16_from_map m "_tps"
  let ram ← parse_u16_from_map m "_ram"
  let max_ram ← parse_u16_from_map m "_maxRam"
  let public_address ← parse_string_from_map m "_publicAddress"
  let port ← parse_u16_from_map m "_port"
  let donors_online ← parse_u8_from_map m "_donorsOnline"
  let start_up_date ← parse_u64_from_map m "_startUpDate"
  let current_time ← parse_u64_from_map m "_currentTime"
  pure {
    name := name, group := group, motd := motd,
    player_count := player_count, max_player_count := max_player_count,
    tps := tps, ram := ram, max_ram := max_ram,
    public_address := public_address, port := port,
    donors_online := donors_online, start_up_date := start_up_date,
    current_time := current_time }

/-- Model of `ServerStatus` from `src/server/minecraft.rs`. -/
inductive ServerStatus where
  | ONLINE | OFFLINE | DOES_NOT_EXIST | GROUP_NOT_FOUND | INSTANCE_NOT_FOUND
deriving DecidableEq, Repr

/-- Model of `MinecraftServer::is_online`: whether the wall clock `now` (in
milliseconds) lies in the window `current_time ± 5000`, computed with
wrapping `u64` arithmetic exactly as the source does
(`self.current_time - interval` and `self.current_time + interval`). -/
def is_online (self : MinecraftServer) (now : Nat) : Bool :=
  let interval := 5 * 1000
  let seconds_before_curr := u64sub self.current_time interval
  let seconds_after_curr := u64add self.current_time interval
  decide (seconds_before_curr ≤ now) && decide (now ≤ seconds_after_curr)

/-- Model of `MinecraftServer::update`, as a function of the stored snapshot, the
result of resolving the group (`get_server_group`), the result of
re-reading the status key (`Self::get`), and the wall clock `now`.  The
returned pair is the status and the snapshot stored afterwards. -/
def MinecraftServer.update (self : MinecraftServer) (group? : Option ServerGroup)
    (fresh? : Option MinecraftServer) (now : Nat) : ServerStatus × MinecraftServer :=
  match group? with
  | none => (.GROUP_NOT_FOUND, self)
  | some _ =>
    match fresh? with
    | none => (.INSTANCE_NOT_FOUND, self)
    | some server =>
      if self.current_time == server.current_time && !(is_online self now) then
        (.OFFLINE, self)
      else
        (.ONLINE, server)

/-- A concrete stored snapshot (plain-string MOTD), `current_time` 100000 ms. -/
def demoStored : MinecraftServer :=
  { name := "MIN-1", group := "MIN", motd := .Motd "A Minecraft Server",
    player_count := 5, max_player_count := 24, tps := 20, ram := 512,
    max_ram := 1024, public_address := "127.0.0.1", port := 25566,
    donors_online := 0, start_up_date := 1700000000,
    current_time := 100000 }

/-- A freshly read snapshot whose `current_time` (50000 ms) went backwards. -/
def demoFresh : MinecraftServer := { demoStored with current_time := 50000 }

/-- A status object in which the required numeric field `_playerCount`
holds 300, outside the `u8` width; everything else is well-formed. -/
def demoStatusJson : Json := .obj
  [("_name", .str "MIN-1"), ("_group", .str "MIN"),
   ("_motd", .str "A Minecraft Server"), ("_playerCount", .int 300),
   ("_maxPlayerCount", .int 20), ("_tps", .int 20), ("_ram", .int 512),
   ("_maxRam", .int 1024), ("_publicAddress", .str "127.0.0.1"),
   ("_port", .int 25566), ("_donorsOnline", .int 0),
   ("_startUpDate", .int 1700000000), ("_currentTime", .int 1700000000000)]

/-- The snapshot the parser actually produces from `demoStatusJson`: the
out-of-width 300 has silently wrapped to 44 = 300 mod 256. -/
def demoStatus : MinecraftServer :=
  { name := "MIN-1", group := "MIN", motd := .Motd "A Minecraft Server",
    player_count := 44, max_player_count := 20, tps := 20, ram := 512,
    max_ram := 1024, public_address := "127.0.0.1", port := 25566,
    donors_online := 0, start_up_date := 1700000000,
    current_time := 1700000000000 }

/-! ## Dedicated nodes (`src/server/dedicated/instance.rs`, `server.rs`,
`collection.rs`) -/

/-- Model of `str::split_once` on the underlying characters: split at the first
occurrence of `c`. -/
def splitOnceChars (cs : List Char) (c : Char) : Option (List Char × List Char) :=
  match cs with
  | [] => none
  | x :: xs =>
    if x = c then some ([], xs)
    else (splitOnceChars xs c).map (fun p => (x :: p.1, p.2))

/-- Rust `str::split_once`. -/
def split_once (s : String) (c : Char) : Option (String × String) :=
  (splitOnceChars s.data c).map (fun p => (⟨p.1⟩, ⟨p.2⟩))

/-- Model of `MCSInstance::calculate_server_num` from
`src/server/dedicated/instance.rs`: the part after the first `-` parsed
as `usize`, with every failure defaulting to 0. -/
def calculate_server_num (name : String) : Nat :=
  let parts := (split_once name '-').getD (name, "0")
  (parseUnsigned 18446744073709551615 parts.2).getD 0

/-- Model of `MCSInstance` from `src/server/dedicated/instance.rs`. -/
structure MCSInstance where
  name : String
  group : String
  server_num : Nat
  port : Nat
  region : Region
  server : Option MinecraftServer
deriving DecidableEq, Repr

/-- Model of `MCSInstance::new`: the server number is recomputed from the name. -/
def MCSInstance.new (name group : String) (port : Nat) (region : Region)
    (server : Option MinecraftServer) : MCSInstance :=
  { name := name, group := group, server_num := calculate_server_num name,
    port := port, region := region, server := server }

/-- Model of `DedicatedServerError` from `src/server/dedicated/server.rs`; the
interpolated message payloads are elided (no claim inspects them). -/
inductive DedicatedServerError where
  | ParsingError
  | StorageError
  | BungeeNotFoundError
  | MinecraftServerNotRunning
  | DuplicateInstanceRunning
  | InstanceNotFound
  | ZeroInstancesRunning
deriving DecidableEq, Repr

/-- Model of `DedicatedServer` from `src/server/dedicated/server.rs`; the
`i16` resource fields are `Int` with wrap-around applied where the source
arithmetic wraps, and `server_instances` is the entry list of the
`HashMap<String, Vec<MCSInstance>>`. -/
structure DedicatedServer where
  name : String
  public_address : String
  private_address : String
  region : Region
  available_cpu : Int
  available_ram : Int
  max_cpu : Int
  max_ram : Int
  server_instances : List (String × List MCSInstance)
deriving DecidableEq, Repr

/-- Model of `HashMap::get` on the instance map. -/
def getInstancesMap (m : List (String × List MCSInstance)) (k : String) :
    Option (List MCSInstance) :=
  (List.find? (fun p => p.1 == k) m).map (fun p => p.2)

/-- Model of `DedicatedServer::get_instances`. -/
def DedicatedServer.get_instances (self : DedicatedServer) (group : ServerGroup) :
    Option (List MCSInstance) :=
  getInstancesMap self.server_instances group.name

/-- Model of `DedicatedServer::get_server_count`: `vec.len() as i16` (the length
is truncated to 16 bits and reinterpreted, exactly as the cast does). -/
def DedicatedServer.get_server_count (self : DedicatedServer) (group : ServerGroup) : Int :=
  ((self.get_instances group).map (fun vec => usizeToI16 vec.length)).getD 0

/-- Model of `DedicatedServer::get_server_nums`. -/
def DedicatedServer.get_server_nums (self : DedicatedServer) (group : ServerGroup) : List Nat :=
  (((getInstancesMap self.server_instances group.name).getD []).map
    (fun mcs => mcs.server_num))

/-- Model of `DedicatedServer::has_space_for`:
`available_ram >= group.ram as i16 && available_cpu >= group.cpu as i16`
(the `u16` ram cast wraps for values at or above 32768). -/
def DedicatedServer.has_space_for (self : DedicatedServer) (group : ServerGroup) : Bool :=
  decide (self.available_ram ≥ toI16 (group.ram : Int))
    && decide (self.available_cpu ≥ toI16 (group.cpu : Int))

/-- Push an instance onto the group vector, or insert a fresh
single-element vector (`get_mut` + `push` / `insert`). -/
def pushInstance (m : List (String × List MCSInstance)) (k : String) (i : MCSInstance) :
    List (String × List MCSInstance) :=
  if (getInstancesMap m k).isSome then
    m.map (fun p => if p.1 == k then (p.1, p.2 ++ [i]) else p)
  else m ++ [(k, [i])]

/-- Model of `DedicatedServer::add_server` from `src/server/dedicated/server.rs`.
The pair is the `Result` together with the node afterwards; both error
branches return before any mutation, so they leave the node unchanged.
The instance port is `group.port_section + (server_num as u16)` with
`u16` wrap-around. -/
def DedicatedServer.add_server (self : DedicatedServer) (group : ServerGroup)
    (server_num : Nat) : Except DedicatedServerError Unit × DedicatedServer :=
  if !(self.has_space_for group) then
    (.error .StorageError, self)
  else if (self.get_server_nums group).contains server_num then
    (.error .DuplicateInstanceRunning, self)
  else
    let group_name := group.name
    let server_name := group_name ++ "-" ++ natToString server_num
    let inst : MCSInstance := MCSInstance.new server_name group.name
      (u16add group.port_section (server_num % 18446744073709551616 % 65536))
      group.region none
    (.ok (), { self with
      server_instances := pushInstance self.server_instances group_name inst,
      available_ram := i16sub self.available_ram (toI16 (group.ram : Int)),
      available_cpu := i16sub self.available_cpu (toI16 (group.cpu : Int)) })

/-- Sort key of `Ord for DedicatedServer`:
`(available_ram, available_cpu)` lexicographically ascending. -/
def dedLe (a b : DedicatedServer) : Bool :=
  decide (a.available_ram < b.available_ram)
    || (decide (a.available_ram = b.available_ram)
        && decide (a.available_cpu ≤ b.available_cpu))

/-- Model of `DedicatedServers::sort_servers`: a stable sort by the `Ord` key. -/
def sortServers (servers : List DedicatedServer) : List DedicatedServer :=
  servers.mergeSort dedLe

/-- Loop body of `get_best_dedicated_server`: skip a candidate with the
wrong region or without space; otherwise it replaces the current best
unless the best has a strictly lower count of the group instances. -/
def bestStep (group : ServerGroup) (best : Option DedicatedServer) (ds : DedicatedServer) :
    Option DedicatedServer :=
  if ds.region ≠ group.region || !(ds.has_space_for group) then best
  else
    match best with
    | some b =>
      if b.get_server_count group < ds.get_server_count group then best
      else some ds
    | none => some ds

/-- Model of `DedicatedServers::get_best_dedicated_server` from
`src/server/dedicated/collection.rs`: sort ascending by free resources,
then walk with `bestStep`. -/
def get_best_dedicated_server (servers : List DedicatedServer) (group : ServerGroup) :
    Option DedicatedServer :=
  (sortServers servers).foldl (bestStep group) none

/-- Eligibility of a node for a group: matching region and room for the
group resources (as the source `has_space_for` computes it). -/
def eligibleNode (g : ServerGroup) (d : DedicatedServer) : Prop :=
  d.region = g.region ∧ d.has_space_for g = true

/-- Decidable equality for `Except` values (not provided by the library). -/
def exceptDecEq {e a : Type} [DecidableEq e] [DecidableEq a] : DecidableEq (Except e a) :=
  fun x y =>
    match x, y with
    | .error u, .error v =>
      if h : u = v then .isTrue (by rw [h])
      else .isFalse (fun hc => by injection hc with h2; exact h h2)
    | .ok u, .ok v =>
      if h : u = v then .isTrue (by rw [h])
      else .isFalse (fun hc => by injection hc with h2; exact h h2)
    | .error _, .ok _ => .isFalse (fun hc => Except.noConfusion hc)
    | .ok _, .error _ => .isFalse (fun hc => Except.noConfusion hc)

instance {e a : Type} [DecidableEq e] [DecidableEq a] : DecidableEq (Except e a) :=
  exceptDecEq

/-- A node in the group region whose free RAM is zero. -/
def tinyNode : DedicatedServer :=
  { name := "N1", public_address := "1.2.3.4", private_address := "10.0.0.1",
    region := .US, available_cpu := 1, available_ram := 0, max_cpu := 1,
    max_ram := 0, server_instances := [] }

/-- A group demanding 40000 MB of RAM (a legal `u16` value); its `as i16`
cast is negative. -/
def bigGroup : ServerGroup := { wGroup with name := "BIG", prefixName := "BIG", ram := 40000 }

/-- A node with room to spare for `wGroup`. -/
def goodNode : DedicatedServer :=
  { name := "N2", public_address := "1.2.3.4", private_address := "10.0.0.3",
    region := .US, available_cpu := 2, available_ram := 1024, max_cpu := 2,
    max_ram := 1024, server_instances := [] }

/-- A node with exactly enough resources for one `wGroup` instance. -/
def node9 : DedicatedServer :=
  { name := "N9", public_address := "1.2.3.4", private_address := "10.0.0.4",
    region := .US, available_cpu := 1, available_ram := 512, max_cpu := 1,
    max_ram := 512, server_instances := [] }

/-- The node after a successful `add_server(wGroup, 3)` exhausted it. -/
def node9after : DedicatedServer := (node9.add_server wGroup 3).2

/-- A node with room for several `wGroup` instances. -/
def roomyNode : DedicatedServer :=
  { name := "N10", public_address := "1.2.3.4", private_address := "10.0.0.5",
    region := .US, available_cpu := 4, available_ram := 2048, max_cpu := 4,
    max_ram := 2048, server_instances := [] }

/-- The roomy node after a successful `add_server(wGroup, 3)`. -/
def roomyNodeAfter : DedicatedServer := (roomyNode.add_server wGroup 3).2

/-! ## Theorems -/

theorem toI16_of_u16 {n : Nat} (h : n < 65536) :
    toI16 (n : Int) = if n < 32768 then (n : Int) else (n : Int) - 65536 := by
  unfold toI16
  by_cases h2 : n < 32768
  · rw [if_pos h2]
    omega
  · rw [if_neg h2]
    omega

theorem natToCharsAux_mono :
    ∀ n f1 f2, n < f1 → n < f2 → natToCharsAux f1 n = natToCharsAux f2 n := by
  intro n
  induction n using Nat.strong_induction_on with
  | _ n ih =>
    intro f1 f2 h1 h2
    match f1, f2 with
    | fa + 1, fb + 1 =>
      unfold natToCharsAux
      by_cases h : n < 10
      · rw [if_pos h, if_pos h]
      · rw [if_neg h, if_neg h]
        have hdiv : n / 10 < n := Nat.div_lt_self (by omega) (by omega)
        rw [ih (n / 10) hdiv fa fb (by omega) (by omega)]

/-- The defining recursion of `natToChars`. -/
theorem natToChars_unfold (n : Nat) :
    natToChars n = if n < 10 then [decDigitChar n]
      else natToChars (n / 10) ++ [decDigitChar (n % 10)] := by
  show natToCharsAux (n + 1) n = _
  unfold natToCharsAux
  by_cases h : n < 10
  · rw [if_pos h, if_pos h]
  · rw [if_neg h, if_neg h]
    have hdiv : n / 10 < n := Nat.div_lt_self (by omega) (by omega)
    rw [natToCharsAux_mono (n / 10) n (n / 10 + 1) (by omega) (by omega)]
    rfl

theorem decDigitChar_toNat {d : Nat} (h : d < 10) : (decDigitChar d).toNat = 48 + d := by
  interval_cases d <;> decide

theorem natToChars_digits (n : Nat) :
    ∀ c ∈ natToChars n, 48 ≤ c.toNat ∧ c.toNat ≤ 57 := by
  induction n using Nat.strong_induction_on with
  | _ n ih =>
    rw [natToChars_unfold]
    by_cases h : n < 10
    · simp only [if_pos h, List.mem_singleton]
      rintro c rfl
      rw [decDigitChar_toNat h]
      omega
    · simp only [if_neg h, List.mem_append, List.mem_singleton]
      rintro c (hc | rfl)
      · exact ih (n / 10) (Nat.div_lt_self (by omega) (by omega)) c hc
      · rw [decDigitChar_toNat (Nat.mod_lt _ (by omega))]
        have := Nat.mod_lt n (y := 10) (by omega)
        omega

theorem natToChars_ne_nil (n : Nat) : natToChars n ≠ [] := by
  rw [natToChars_unfold]
  by_cases h : n < 10
  · simp [h]
  · simp [h]

theorem foldl_parseStep_natToChars (max : Nat) :
    ∀ n a, a * 10 ^ (natToChars n).length + n ≤ max →
      (natToChars n).foldl (parseStep max) (some a) =
        some (a * 10 ^ (natToChars n).length + n) := by
  intro n
  induction n using Nat.strong_induction_on with
  | _ n ih =>
    intro a hle
    rw [natToChars_unfold] at hle ⊢
    by_cases h : n < 10
    · simp only [if_pos h] at hle ⊢
      simp only [List.foldl_cons, List.foldl_nil, parseStep, decDigitVal,
        decDigitChar_toNat h, List.length_singleton, pow_one] at hle ⊢
      rw [if_pos (by omega)]
      simp only [Nat.add_sub_cancel_left]
      rw [if_pos (by omega)]
    · simp only [if_neg h] at hle ⊢
      rw [List.foldl_append]
      have hdiv : n / 10 < n := Nat.div_lt_self (by omega) (by omega)
      have hlen : (natToChars (n / 10) ++ [decDigitChar (n % 10)]).length
          = (natToChars (n / 10)).length + 1 := by simp
      rw [hlen] at hle
      have hsplit : a * 10 ^ ((natToChars (n / 10)).length + 1) + n
          = (a * 10 ^ (natToChars (n / 10)).length + n / 10) * 10 + n % 10 := by
        rw [pow_succ]
        have := Nat.div_add_mod n 10
        ring_nf
        omega
      have hle2 : a * 10 ^ (natToChars (n / 10)).length + n / 10 ≤ max := by omega
      rw [ih (n / 10) hdiv a hle2]
      simp only [List.foldl_cons, List.foldl_nil, parseStep, decDigitVal,
        decDigitChar_toNat (Nat.mod_lt _ (show 0 < 10 by omega))]
      rw [if_pos (by omega)]
      simp only [Nat.add_sub_cancel_left]
      rw [if_pos (by omega), hlen, hsplit]

/-- Parsing the decimal printout of `n` into a type that can hold `n`
recovers `n` (exact round-trip of Rust `to_string` then `parse`). -/
theorem parseUnsigned_natToString {max n : Nat} (h : n ≤ max) :
    parseUnsigned max (natToString n) = some n := by
  unfold parseUnsigned natToString
  have hne := natToChars_ne_nil n
  have hdigits := natToChars_digits n
  have hstrip : stripPlusSign (String.data ⟨natToChars n⟩) = natToChars n := by
    show stripPlusSign (natToChars n) = natToChars n
    cases hcs : natToChars n with
    | nil => exact absurd hcs hne
    | cons c rest =>
      have hc := hdigits c (by rw [hcs]; exact List.mem_cons_self ..)
      have : c ≠ '+' := by
        intro hplus
        have hno : ¬(48 ≤ ('+').toNat ∧ ('+').toNat ≤ 57) := by decide
        rw [hplus] at hc
        exact hno hc
      simp [stripPlusSign, this]
  rw [hstrip, if_neg (by simpa using hne)]
  have := foldl_parseStep_natToChars max n 0 (by simpa using h)
  simpa using this

theorem Region.tryFrom_toStr (r : Region) : Region.tryFrom (Region.toStr r) = .ok r := by
  cases r <;> rfl

theorem parse_value_of_mget {p m k v} (h : mget m k = some v) :
    parse_value p m k = .ok v := by
  simp only [parse_value, h]

theorem parse_u16_of_mget {p m k n} (h : mget m k = some (natToString n)) (hb : n ≤ 65535) :
    parse_u16 p m k = .ok n := by
  simp only [parse_u16, h, parseUnsigned_natToString hb]

theorem parse_u8_of_mget {p m k n} (h : mget m k = some (natToString n)) (hb : n ≤ 255) :
    parse_u8 p m k = .ok n := by
  simp only [parse_u8, h, parseUnsigned_natToString hb]

theorem parse_bool_of_mget {p m k b} (h : mget m k = some (boolToString b)) :
    parse_bool_or_default p m k = .ok b := by
  cases b <;> (unfold parse_bool_or_default; rw [h]) <;> rfl

theorem parse_optional_of_mget {m k o} (h : mget m k = some (o.getD "")) (ho : StrOptOk o) :
    parse_optional_str m k = .ok o := by
  unfold parse_optional_str
  rw [h]
  cases o with
  | none => rfl
  | some s =>
    obtain ⟨h1, h2⟩ := ho
    have he : s.isEmpty = false := by
      cases hse : s.isEmpty
      · rfl
      · exact absurd ((String.isEmpty_iff s).mp hse) h1
    have hn : (s != "null") = true := by
      simpa using h2
    simp [Option.filter, he, hn]

theorem bindok {α β : Type} (a : α) (f : α → Except String β) :
    (Except.ok a >>= f) = f a := rfl

/-- C1 (codec round-trip): for every valid `ServerGroup` G — name equal to
its prefix, numeric fields within their Rust widths, optional string
fields never `Some("")` or `Some("null")` — parsing the serialized map
back yields exactly G: `from_hashmap (to_hashmap G) = ok G`. -/
theorem C1_codec_roundtrip (g : ServerGroup) (h : ValidServerGroup g) :
    from_hashmap (to_hashmap g) = .ok g := by
  obtain ⟨hpre, hram, hcpu, htot, hjoin, hport, hmin, hmax, hupt, hhost, hgames,
    hmodes, hboost, hres, htsk, hpbc, hptc, hnpc⟩ := h
  have e1 : parse_u16 g.name (to_hashmap g) "ram" = .ok g.ram :=
    parse_u16_of_mget rfl hram
  have e2 : parse_u8 g.name (to_hashmap g) "cpu" = .ok g.cpu :=
    parse_u8_of_mget rfl hcpu
  have e3 : parse_u8 g.name (to_hashmap g) "totalServers" = .ok g.total_servers :=
    parse_u8_of_mget rfl htot
  have e4 : parse_u8 g.name (to_hashmap g) "joinableServers" = .ok g.joinable_servers :=
    parse_u8_of_mget rfl hjoin
  have e5 : parse_u16 g.name (to_hashmap g) "portSection" = .ok g.port_section :=
    parse_u16_of_mget rfl hport
  have e6 : parse_optional_str (to_hashmap g) "uptimes" = .ok g.uptimes :=
    parse_optional_of_mget rfl hupt
  have e7 : parse_bool_or_default g.name (to_hashmap g) "arcadeGroup" = .ok g.arcade_group :=
    parse_bool_of_mget rfl
  have e8 : parse_value g.name (to_hashmap g) "worldZip" = .ok g.world_zip :=
    parse_value_of_mget rfl
  have e9 : parse_value g.name (to_hashmap g) "plugin" = .ok g.plugin :=
    parse_value_of_mget rfl
  have e10 : parse_value g.name (to_hashmap g) "configPath" = .ok g.config_path :=
    parse_value_of_mget rfl
  have e11 : parse_optional_str (to_hashmap g) "host" = .ok g.host :=
    parse_optional_of_mget rfl hhost
  have e12 : parse_u8 g.name (to_hashmap g) "minPlayers" = .ok g.min_players :=
    parse_u8_of_mget rfl hmin
  have e13 : parse_u8 g.name (to_hashmap g) "maxPlayers" = .ok g.max_players :=
    parse_u8_of_mget rfl hmax
  have e14 : parse_bool_or_default g.name (to_hashmap g) "pvp" = .ok g.pvp :=
    parse_bool_of_mget rfl
  have e15 : parse_bool_or_default g.name (to_hashmap g) "tournament" = .ok g.tournament :=
    parse_bool_of_mget rfl
  have e16 : parse_bool_or_default g.name (to_hashmap g) "tournamentPoints" = .ok g.tournament_points :=
    parse_bool_of_mget rfl
  have e17 : parse_bool_or_default g.name (to_hashmap g) "hardMaxPlayerCap" = .ok g.hard_max_player_cap :=
    parse_bool_of_mget rfl
  have e18 : parse_optional_str (to_hashmap g) "games" = .ok g.games :=
    parse_optional_of_mget rfl hgames
  have e19 : parse_optional_str (to_hashmap g) "modes" = .ok g.modes :=
    parse_optional_of_mget rfl hmodes
  have e20 : parse_optional_str (to_hashmap g) "boosterGroup" = .ok g.booster_group :=
    parse_optional_of_mget rfl hboost
  have e21 : parse_value g.name (to_hashmap g) "serverType" = .ok g.server_type :=
    parse_value_of_mget rfl
  have e22 : parse_bool_or_default g.name (to_hashmap g) "addNoCheat" = .ok g.add_no_cheat :=
    parse_bool_of_mget rfl
  have e23 : parse_bool_or_default g.name (to_hashmap g) "addWorldEdit" = .ok g.add_world_edit :=
    parse_bool_of_mget rfl
  have e24 : parse_bool_or_default g.name (to_hashmap g) "teamRejoin" = .ok g.team_rejoin :=
    parse_bool_of_mget rfl
  have e25 : parse_bool_or_default g.name (to_hashmap g) "teamAutoJoin" = .ok g.team_auto_join :=
    parse_bool_of_mget rfl
  have e26 : parse_bool_or_default g.name (to_hashmap g) "teamForceBalance" = .ok g.team_force_balance :=
    parse_bool_of_mget rfl
  have e27 : parse_bool_or_default g.name (to_hashmap g) "gameAutoStart" = .ok g.game_auto_start :=
    parse_bool_of_mget rfl
  have e28 : parse_bool_or_default g.name (to_hashmap g) "gameTimeout" = .ok g.game_timeout :=
    parse_bool_of_mget rfl
  have e29 : parse_bool_or_default g.name (to_hashmap g) "gameVoting" = .ok g.game_voting :=
    parse_bool_of_mget rfl
  have e30 : parse_bool_or_default g.name (to_hashmap g) "mapVoting" = .ok g.map_voting :=
    parse_bool_of_mget rfl
  have e31 : parse_bool_or_default g.name (to_hashmap g) "rewardGems" = .ok g.reward_gems :=
    parse_bool_of_mget rfl
  have e32 : parse_bool_or_default g.name (to_hashmap g) "rewardItems" = .ok g.reward_items :=
    parse_bool_of_mget rfl
  have e33 : parse_bool_or_default g.name (to_hashmap g) "rewardStats" = .ok g.reward_stats :=
    parse_bool_of_mget rfl
  have e34 : parse_bool_or_default g.name (to_hashmap g) "rewardAchievements" = .ok g.reward_achievements :=
    parse_bool_of_mget rfl
  have e35 : parse_bool_or_default g.name (to_hashmap g) "hotbarInventory" = .ok g.hotbar_inventory :=
    parse_bool_of_mget rfl
  have e36 : parse_bool_or_default g.name (to_hashmap g) "hotbarHubClock" = .ok g.hotbar_hub_clock :=
    parse_bool_of_mget rfl
  have e37 : parse_bool_or_default g.name (to_hashmap g) "playerKickIdle" = .ok g.player_kick_idle :=
    parse_bool_of_mget rfl
  have e38 : parse_bool_or_default g.name (to_hashmap g) "staffOnly" = .ok g.staff_only :=
    parse_bool_of_mget rfl
  have e39 : parse_bool_or_default g.name (to_hashmap g) "whitelist" = .ok g.whitelist :=
    parse_bool_of_mget rfl
  have e40 : parse_optional_str (to_hashmap g) "resourcePack" = .ok g.resource_pack :=
    parse_optional_of_mget rfl hres
  have e41 : parse_value g.name (to_hashmap g) "region" = .ok (Region.toStr g.region) :=
    parse_value_of_mget rfl
  have e42 : parse_optional_str (to_hashmap g) "teamServerKey" = .ok g.team_server_key :=
    parse_optional_of_mget rfl htsk
  have e43 : parse_optional_str (to_hashmap g) "portalBottomCornerLocation" = .ok g.portal_bottom_corner_location :=
    parse_optional_of_mget rfl hpbc
  have e44 : parse_optional_str (to_hashmap g) "portalTopCornerLocation" = .ok g.portal_top_corner_location :=
    parse_optional_of_mget rfl hptc
  have e45 : parse_optional_str (to_hashmap g) "npcName" = .ok g.npc_name :=
    parse_optional_of_mget rfl hnpc
  have hfields : from_hashmap_fields g.name (to_hashmap g) = .ok g := by
    unfold from_hashmap_fields
    rw [e1, bindok, e2, bindok, e3, bindok, e4, bindok, e5, bindok, e6, bindok,
      e7, bindok, e8, bindok, e9, bindok, e10, bindok, e11, bindok, e12, bindok,
      e13, bindok, e14, bindok, e15, bindok, e16, bindok, e17, bindok, e18, bindok,
      e19, bindok, e20, bindok, e21, bindok, e22, bindok, e23, bindok, e24, bindok,
      e25, bindok, e26, bindok, e27, bindok, e28, bindok, e29, bindok, e30, bindok,
      e31, bindok, e32, bindok, e33, bindok, e34, bindok, e35, bindok, e36, bindok,
      e37, bindok, e38, bindok, e39, bindok, e40, bindok, e41]
    show (Region.tryFrom ((Except.ok (Region.toStr g.region)).toOption.getD "US") >>= _) = _
    rw [show (Except.ok (Region.toStr g.region) : Except String String).toOption.getD "US"
        = Region.toStr g.region from rfl,
      Region.tryFrom_toStr, bindok, e42, bindok, e43, bindok, e44, bindok, e45, bindok]
    show Except.ok _ = Except.ok g
    congr 1
    cases g
    simp only at hpre ⊢
    rw [← hpre]
  have k1 : misEmpty (to_hashmap g) = false := rfl
  have k2 : mget (to_hashmap g) "name" = some g.name := rfl
  have k3 : parse_value g.name (to_hashmap g) "prefix" = .ok g.prefixName :=
    parse_value_of_mget rfl
  simp only [from_hashmap, k1, k2, k3, ← hpre, Bool.false_eq_true, if_false,
    eq_self_iff_true, if_true, hfields]

/-- Witness: the round-trip theorem applied to a concrete valid group. -/
theorem C1_codec_roundtrip_witness :
    ValidServerGroup wGroup ∧ from_hashmap (to_hashmap wGroup) = .ok wGroup :=
  ⟨by unfold ValidServerGroup; decide, C1_codec_roundtrip wGroup (by unfold ValidServerGroup; decide)⟩

theorem get_all_other_port_sections_eq_map (self : ServerGroup) (cache : List ServerGroup) :
    get_all_other_port_sections self cache = cache.map (fun sg => sg.port_section) := by
  unfold get_all_other_port_sections
  induction cache with
  | nil => rfl
  | cons a l ih =>
    rw [List.filterMap_cons, List.map_cons, ← ih]
    rfl

theorem conflict_false_iff {p q : Nat} (hp : p ≤ 65525) (hq : q ≤ 65525) :
    (((decide (p < q) && decide (q ≤ u16add p 10))
      || (decide (q < p) && decide (p ≤ u16add q 10))
      || (q == p)) = false) ↔ (q + 10 < p ∨ p + 10 < q) := by
  have h1 : u16add p 10 = p + 10 := by unfold u16add; omega
  have h2 : u16add q 10 = q + 10 := by unfold u16add; omega
  simp only [h1, h2, Bool.or_eq_false_iff, Bool.and_eq_false_iff,
    decide_eq_false_iff_not, not_lt, beq_eq_false_iff_ne, Ne]
  omega

/-- C2 counterexample: with `u16` wrap-around in the `+ 10` window checks,
a fresh create of a group whose own port section is 65530 passes the
conflict check against a cached section 65535 (the wrapped upper bound
`65530 + 10` is 4), so the resulting cache holds two sections only 5
apart, refuting the claim for unrestricted `u16` port sections. -/
theorem C2_port_noncollision_cex :
    PortsOk [groupNamed "A" 65535]
    ∧ CreateStep [groupNamed "A" 65535] (groupNamed "B" 65530)
        ([groupNamed "A" 65535] ++ [withPort (groupNamed "B" 65530) 65530])
    ∧ ¬ PortsOk ([groupNamed "A" 65535] ++ [withPort (groupNamed "B" 65530) 65530]) := by
  refine ⟨?_, ?_, ?_⟩
  · simp [PortsOk]
  · exact CreateStep.fresh (by decide) (Or.inl rfl) (by decide)
  · intro hok
    unfold PortsOk at hok
    have := List.rel_of_pairwise_cons hok (List.mem_singleton.mpr rfl)
    unfold portsApart at this
    revert this
    decide

/-- C2 (amended): starting from a cache in which every port section is at
most 65525 and every pair of distinct cached groups is more than 10
apart, any sequence of successful `create` calls for groups whose
`port_section` fields are at most 65525 preserves both properties (the
bound rules out `u16` wrap-around in the window check, which the
counterexample shows is otherwise violated). -/
theorem C2_port_noncollision_amended {c c2 : List ServerGroup}
    (hseq : CreateSeq (fun g => g.port_section ≤ 65525) c c2)
    (hbound : ∀ g ∈ c, g.port_section ≤ 65525) (hok : PortsOk c) :
    PortsOk c2 ∧ ∀ g ∈ c2, g.port_section ≤ 65525 := by
  induction hseq with
  | refl => exact ⟨hok, hbound⟩
  | step _seq hP hstep ih =>
    obtain ⟨ihok, ihb⟩ := ih
    cases hstep with
    | existing _ => exact ⟨ihok, ihb⟩
    | fresh hnot hrange hcheck =>
      rename_i cache g p
      have hpb : p ≤ 65525 := by
        rcases hrange with h | h
        · rw [h]; exact hP
        · omega
      constructor
      · unfold PortsOk
        rw [List.pairwise_append]
        refine ⟨ihok, by simp, ?_⟩
        intro a ha b hb
        rw [List.mem_singleton] at hb
        subst hb
        rw [get_all_other_port_sections_eq_map] at hcheck
        unfold check_port_section_conflicts at hcheck
        rw [List.any_eq_false] at hcheck
        have := hcheck a.port_section (List.mem_map_of_mem _ ha)
        rw [Bool.not_eq_true] at this
        have hdist := (conflict_false_iff hpb (ihb a ha)).mp this
        unfold portsApart withPort
        simp only []
        omega
      · intro x hx
        rw [List.mem_append] at hx
        rcases hx with hx | hx
        · exact ihb x hx
        · rw [List.mem_singleton] at hx
          subst hx
          exact hpb

/-- Witness: one fresh `create` into the empty cache, at the group own
section 25565, yields a cache satisfying the invariant. -/
theorem C2_port_noncollision_witness :
    PortsOk ([] ++ [withPort wGroup 25565])
    ∧ ∀ g ∈ ([] ++ [withPort wGroup 25565]), g.port_section ≤ 65525 :=
  C2_port_noncollision_amended
    (CreateSeq.step CreateSeq.refl (by decide)
      (CreateStep.fresh (by simp) (Or.inl rfl) (by decide)))
    (by simp) (List.Pairwise.nil)

/-- C3 (code bug, evaluated at the failing input): for a cache that
contains the group itself, `get_all_other_port_sections` returns the
group own cached port section — the name filter in the source
`filter_map` closure is inert, contradicting both the claim and the
function own doc comment ("do not include self"). -/
theorem C3_reconcile_exclusion_bug :
    get_all_other_port_sections wGroup [wGroup] = [wGroup.port_section] := rfl

/-- C7 (code bug, evaluated at the failing input): on a map whose
`prefix` differs from its `name` (all required keys present),
`from_hashmap` panics — the source checks the invariant with
`assert_eq!` — instead of returning a `ServerGroupParsingError` value. -/
theorem C7_prefix_mismatch_panics : from_hashmap mismatchMap = .panicked := rfl

/-- C8 (code bug, evaluated at the failing input): for a group whose
prefix has no entry in the cache, `load_existing_cache` panics (the
`unwrap` of `None`) instead of returning normally with the group
unchanged. -/
theorem C8_missing_cache_panics : load_existing_cache wGroup [] = .panicked := rfl

/-- C10 (fresh MixedArcade options): with no cached group for prefix
`"MIN"`, building options for `MixedArcade` yields the comma-joined first
seven `GameType` values as `games`, `min_players` 8, `max_players` 24,
prefix `"MIN"`, server type `"Minigames"`, and a port section in
`[25565, 26001)` (the fresh port satisfies the `rnd_port` loop
constraint, which over an empty cache is exactly that range). -/
theorem C10_fresh_options (p : Nat) (hp : rnd_port_spec [] p) :
    (game_options_try_from .MixedArcade none p).games =
        some "Micro,MixedArcade,Cards,Draw,Build,BuildMavericks,Tug"
    ∧ (game_options_try_from .MixedArcade none p).min_players = 8
    ∧ (game_options_try_from .MixedArcade none p).max_players = 24
    ∧ (game_options_try_from .MixedArcade none p).prefixName = "MIN"
    ∧ (game_options_try_from .MixedArcade none p).server_type = "Minigames"
    ∧ 25565 ≤ (game_options_try_from .MixedArcade none p).port_section
    ∧ (game_options_try_from .MixedArcade none p).port_section < 26001 := by
  obtain ⟨h1, h2, _⟩ := hp
  refine ⟨rfl, rfl, rfl, rfl, rfl, ?_, ?_⟩
  · rw [show (game_options_try_from .MixedArcade none p).port_section = p from rfl]
    exact h1
  · rw [show (game_options_try_from .MixedArcade none p).port_section = p from rfl]
    exact h2

/-- Witness: the fresh-options theorem at the concrete port 25565. -/
theorem C10_fresh_options_witness :
    (game_options_try_from .MixedArcade none 25565).games =
        some "Micro,MixedArcade,Cards,Draw,Build,BuildMavericks,Tug"
    ∧ (game_options_try_from .MixedArcade none 25565).min_players = 8
    ∧ (game_options_try_from .MixedArcade none 25565).max_players = 24
    ∧ (game_options_try_from .MixedArcade none 25565).prefixName = "MIN"
    ∧ (game_options_try_from .MixedArcade none 25565).server_type = "Minigames"
    ∧ 25565 ≤ (game_options_try_from .MixedArcade none 25565).port_section
    ∧ (game_options_try_from .MixedArcade none 25565).port_section < 26001 :=
  C10_fresh_options 25565 ⟨by omega, by omega, rfl⟩

/-- C5 counterexample: with group resolved and status read, a fresh
`current_time` that went *backwards* (50000 < 100000) still yields
`ONLINE` — the source compares with `!=`, not with "advanced past" — even
though the wall clock (1000000000) is nowhere near the fresh
`current_time`, refuting the claimed iff. -/
theorem C5_online_window_cex :
    (MinecraftServer.update demoStored (some wGroup) (some demoFresh) 1000000000).1 = .ONLINE
    ∧ ¬(demoStored.current_time < demoFresh.current_time)
    ∧ ¬(1000000000 ≤ demoFresh.current_time + 5000
        ∧ demoFresh.current_time ≤ 1000000000 + 5000) :=
  ⟨rfl, by decide, by decide⟩

/-- C5 (amended): given that the group resolves and the status key reads
successfully, and that the stored `current_time` is in
`[5000, 2^64 - 5000)` (so the `u64` window arithmetic cannot wrap),
`update` returns `ONLINE` iff the fresh `current_time` *differs* from the
stored one or the wall clock lies within plus or minus 5000 ms of the
stored (equivalently, in that case, fresh) `current_time`; in the
remaining case it returns `OFFLINE` and leaves the stored snapshot
unchanged. -/
theorem C5_online_window_amended (self server : MinecraftServer) (g : ServerGroup) (now : Nat)
    (hlo : 5000 ≤ self.current_time)
    (hhi : self.current_time + 5000 < 18446744073709551616) :
    ((MinecraftServer.update self (some g) (some server) now).1 = .ONLINE ↔
      (¬server.current_time = self.current_time ∨
        (self.current_time - 5000 ≤ now ∧ now ≤ self.current_time + 5000)))
    ∧ ((MinecraftServer.update self (some g) (some server) now).1 = .ONLINE
        ∨ ((MinecraftServer.update self (some g) (some server) now).1 = .OFFLINE
            ∧ (MinecraftServer.update self (some g) (some server) now).2 = self)) := by
  have hwin : (is_online self now = true) ↔
      (self.current_time - 5000 ≤ now ∧ now ≤ self.current_time + 5000) := by
    unfold is_online u64sub u64add
    simp only [Bool.and_eq_true, decide_eq_true_eq]
    omega
  have hupd : MinecraftServer.update self (some g) (some server) now =
      (if (self.current_time == server.current_time && !(is_online self now)) = true
       then (.OFFLINE, self) else (.ONLINE, server)) := rfl
  by_cases heq : self.current_time = server.current_time
  · by_cases hon : is_online self now = true
    · have hcond : (self.current_time == server.current_time && !(is_online self now)) = false := by
        rw [hon]
        simp
      rw [hupd, hcond, if_neg (by decide)]
      refine ⟨?_, Or.inl rfl⟩
      simp only [true_iff]
      exact Or.inr (hwin.mp hon)
    · have hb : is_online self now = false := by
        cases h2 : is_online self now
        · rfl
        · exact absurd h2 hon
      have hcond : (self.current_time == server.current_time && !(is_online self now)) = true := by
        rw [hb, heq]
        simp
      rw [hupd, hcond, if_pos rfl]
      constructor
      · constructor
        · intro habs
          exact ServerStatus.noConfusion habs
        · intro hdis
          rcases hdis with hne | hw
          · exact absurd heq.symm hne
          · exact absurd (hwin.mpr hw) hon
      · exact Or.inr ⟨rfl, rfl⟩
  · have hcond : (self.current_time == server.current_time && !(is_online self now)) = false := by
      have hb : (self.current_time == server.current_time) = false := by
        rw [beq_eq_false_iff_ne]
        exact heq
      rw [hb]
      simp
    rw [hupd, hcond, if_neg (by decide)]
    refine ⟨?_, Or.inl rfl⟩
    simp only [true_iff]
    exact Or.inl (fun habs => heq habs.symm)

/-- Witness: the amended online-window theorem at concrete inputs. -/
theorem C5_online_window_witness :
    ((MinecraftServer.update demoStored (some wGroup) (some demoFresh) 99000).1 = .ONLINE ↔
      (¬demoFresh.current_time = demoStored.current_time ∨
        (demoStored.current_time - 5000 ≤ 99000 ∧ 99000 ≤ demoStored.current_time + 5000)))
    ∧ ((MinecraftServer.update demoStored (some wGroup) (some demoFresh) 99000).1 = .ONLINE
        ∨ ((MinecraftServer.update demoStored (some wGroup) (some demoFresh) 99000).1 = .OFFLINE
            ∧ (MinecraftServer.update demoStored (some wGroup) (some demoFresh) 99000).2
                = demoStored)) :=
  C5_online_window_amended demoStored demoFresh wGroup 99000 (by decide) (by decide)

/-- C6 counterexample: parsing a status object whose `_playerCount` is
300 (outside `u8`) does not fail; it succeeds with the wrapped value 44,
refuting the claim that out-of-width integers are fatal parse errors. -/
theorem C6_ranged_parse_cex :
    minecraft_try_from demoStatusJson = .ok demoStatus ∧ demoStatus.player_count = 44 :=
  ⟨rfl, rfl⟩

/-- C6 (amended): the numeric field parsers perform no range check — for
any object whose `key` holds an integer `n` representable in `i64`, the
`u16`, `u8` and `i8` parsers succeed with `n` truncated to the target
width (twos-complement `as` cast), regardless of whether `n` fits. -/
theorem C6_ranged_parse_amended (m : List (String × Json)) (key : String) (n : Int)
    (hget : jget m key = some (.int n))
    (hrange : -9223372036854775808 ≤ n ∧ n ≤ 9223372036854775807) :
    parse_u16_from_map m key = .ok (i64ToU16 n)
    ∧ parse_u8_from_map m key = .ok (i64ToU8 n)
    ∧ parse_i8_from_map m key = .ok (i64ToI8 n) := by
  have hnum : parse_number_as_i64 key (.int n) = .ok n := by
    unfold parse_number_as_i64 json_as_i64
    dsimp only
    rw [if_pos hrange]
  unfold parse_u16_from_map parse_u8_from_map parse_i8_from_map
  rw [hget]
  dsimp only
  rw [hnum]
  exact ⟨rfl, rfl, rfl⟩

/-- Witness: the amended theorem at a concrete out-of-width input
(300 wraps to 44 in `u8`). -/
theorem C6_ranged_parse_witness :
    parse_u16_from_map [("k", Json.int 300)] "k" = .ok (i64ToU16 300)
    ∧ parse_u8_from_map [("k", Json.int 300)] "k" = .ok (i64ToU8 300)
    ∧ parse_i8_from_map [("k", Json.int 300)] "k" = .ok (i64ToI8 300) :=
  C6_ranged_parse_amended [("k", Json.int 300)] "k" 300 rfl (by decide)

theorem bestStep_of_not_elig {g ds} (best : Option DedicatedServer)
    (h : ¬ eligibleNode g ds) : bestStep g best ds = best := by
  unfold bestStep
  rw [if_pos]
  unfold eligibleNode at h
  rcases Decidable.not_and_iff_or_not.mp h with hr | hs
  · simp [hr]
  · simp [hs]

theorem bestStep_elig {g ds} (h : eligibleNode g ds) (best : Option DedicatedServer) :
    bestStep g best ds =
      match best with
      | some b =>
        if b.get_server_count g < ds.get_server_count g then some b else some ds
      | none => some ds := by
  obtain ⟨hr, hs⟩ := h
  unfold bestStep
  rw [if_neg (by simp [hr, hs])]
  cases best with
  | none => rfl
  | some b => rfl

/-- Fold invariant for `bestStep`: the accumulator stays eligible, ends
minimal in `get_server_count` among the eligible nodes scanned, and never
gets dropped. -/
theorem bestStep_foldl_spec (g : ServerGroup) (l : List DedicatedServer) :
    ∀ acc : Option DedicatedServer, (∀ b, acc = some b → eligibleNode g b) →
      (∀ d, l.foldl (bestStep g) acc = some d →
        eligibleNode g d
        ∧ (∀ e ∈ l, eligibleNode g e → d.get_server_count g ≤ e.get_server_count g)
        ∧ (∀ b, acc = some b → d.get_server_count g ≤ b.get_server_count g))
      ∧ ((∃ e ∈ l, eligibleNode g e) → (l.foldl (bestStep g) acc).isSome = true)
      ∧ (∀ b, acc = some b → (l.foldl (bestStep g) acc).isSome = true) := by
  induction l with
  | nil =>
    intro acc hacc
    refine ⟨?_, ?_, ?_⟩
    · intro d hd
      refine ⟨hacc d hd, by simp, ?_⟩
      intro b hb
      rw [hb] at hd
      injection hd with h
      subst h
      exact le_refl _
    · rintro ⟨e, he, _⟩
      cases he
    · intro b hb
      simp [hb]
  | cons x xs ih =>
    intro acc hacc
    by_cases hx : eligibleNode g x
    · cases acc with
      | none =>
        have hstep : bestStep g none x = some x := by rw [bestStep_elig hx]
        rw [List.foldl_cons, hstep]
        obtain ⟨ih1, ih2, ih3⟩ := ih (some x)
          (fun b hb => by injection hb with h; subst h; exact hx)
        refine ⟨?_, fun _ => ih3 x rfl, fun b hb => by cases hb⟩
        intro d hd
        obtain ⟨h1, h2, h3⟩ := ih1 d hd
        refine ⟨h1, ?_, fun b hb => by cases hb⟩
        intro e he helige
        rcases List.mem_cons.mp he with rfl | hexs
        · exact h3 e rfl
        · exact h2 e hexs helige
      | some a =>
        have ha : eligibleNode g a := hacc a rfl
        by_cases hlt : a.get_server_count g < x.get_server_count g
        · have hstep : bestStep g (some a) x = some a := by
            rw [bestStep_elig hx]
            dsimp only
            rw [if_pos hlt]
          rw [List.foldl_cons, hstep]
          obtain ⟨ih1, ih2, ih3⟩ := ih (some a)
            (fun b hb => by injection hb with h; subst h; exact ha)
          refine ⟨?_, fun _ => ih3 a rfl, fun b hb => ih3 a rfl⟩
          intro d hd
          obtain ⟨h1, h2, h3⟩ := ih1 d hd
          refine ⟨h1, ?_, ?_⟩
          · intro e he helige
            rcases List.mem_cons.mp he with rfl | hexs
            · have := h3 a rfl
              omega
            · exact h2 e hexs helige
          · intro b hb
            injection hb with h
            subst h
            exact h3 a rfl
        · have hstep : bestStep g (some a) x = some x := by
            rw [bestStep_elig hx]
            dsimp only
            rw [if_neg hlt]
          rw [List.foldl_cons, hstep]
          obtain ⟨ih1, ih2, ih3⟩ := ih (some x)
            (fun b hb => by injection hb with h; subst h; exact hx)
          refine ⟨?_, fun _ => ih3 x rfl, fun b hb => ih3 x rfl⟩
          intro d hd
          obtain ⟨h1, h2, h3⟩ := ih1 d hd
          refine ⟨h1, ?_, ?_⟩
          · intro e he helige
            rcases List.mem_cons.mp he with rfl | hexs
            · exact h3 e rfl
            · exact h2 e hexs helige
          · intro b hb
            injection hb with h
            subst h
            have := h3 x rfl
            omega
    · have hskip : bestStep g acc x = acc := bestStep_of_not_elig acc hx
      rw [List.foldl_cons, hskip]
      obtain ⟨ih1, ih2, ih3⟩ := ih acc hacc
      refine ⟨?_, ?_, ih3⟩
      · intro d hd
        obtain ⟨h1, h2, h3⟩ := ih1 d hd
        refine ⟨h1, ?_, h3⟩
        intro e he helige
        rcases List.mem_cons.mp he with rfl | hexs
        · exact absurd helige hx
        · exact h2 e hexs helige
      · rintro ⟨e, he, helige⟩
        rcases List.mem_cons.mp he with rfl | hexs
        · exact absurd helige hx
        · exact ih2 ⟨e, hexs, helige⟩

/-- C4 counterexample: `has_space_for` casts the group `u16` ram to
`i16`, so a 40000-MB group wraps to a negative requirement and a node
with zero free RAM is "eligible": the placement returns it even though
its available RAM is below the group requirement, refuting the claim
as stated. -/
theorem C4_placement_cex :
    get_best_dedicated_server [tinyNode] bigGroup = some tinyNode
    ∧ tinyNode.available_ram < (bigGroup.ram : Int) := by
  constructor
  · unfold get_best_dedicated_server
    rw [show sortServers [tinyNode] = [tinyNode] from by simp [sortServers, List.mergeSort]]
    decide
  · decide

/-- C4 (amended): `get_best_dedicated_server` never returns a node whose
region differs from the group or for which the source `has_space_for`
(the `i16`-cast comparison) is false; whenever some node is
region-matching with `has_space_for`, a node is returned, and the
returned node `get_server_count` for the group is minimal among all
such nodes. -/
theorem C4_placement_amended (servers : List DedicatedServer) (g : ServerGroup) :
    (∀ d, get_best_dedicated_server servers g = some d →
      d.region = g.region ∧ d.has_space_for g = true
      ∧ ∀ e ∈ servers, e.region = g.region → e.has_space_for g = true →
          d.get_server_count g ≤ e.get_server_count g)
    ∧ ((∃ e ∈ servers, e.region = g.region ∧ e.has_space_for g = true) →
        (get_best_dedicated_server servers g).isSome = true) := by
  have hperm : ∀ e, e ∈ sortServers servers ↔ e ∈ servers := fun e =>
    (List.mergeSort_perm servers dedLe).mem_iff
  obtain ⟨h1, h2, _⟩ := bestStep_foldl_spec g (sortServers servers) none
    (fun b hb => by cases hb)
  constructor
  · intro d hd
    obtain ⟨⟨hr, hs⟩, hmin, _⟩ := h1 d hd
    exact ⟨hr, hs, fun e he her hes => hmin e ((hperm e).mpr he) ⟨her, hes⟩⟩
  · rintro ⟨e, he, her, hes⟩
    exact h2 ⟨e, (hperm e).mpr he, her, hes⟩

/-- Witness: the amended placement theorem at a concrete node list. -/
theorem C4_placement_witness :
    (∀ d, get_best_dedicated_server [goodNode] wGroup = some d →
      d.region = wGroup.region ∧ d.has_space_for wGroup = true
      ∧ ∀ e ∈ [goodNode], e.region = wGroup.region → e.has_space_for wGroup = true →
          d.get_server_count wGroup ≤ e.get_server_count wGroup)
    ∧ ((∃ e ∈ [goodNode], e.region = wGroup.region ∧ e.has_space_for wGroup = true) →
        (get_best_dedicated_server [goodNode] wGroup).isSome = true) :=
  C4_placement_amended [goodNode] wGroup

theorem natToChars_no_dash (n : Nat) : ¬ '-' ∈ natToChars n := by
  intro hmem
  have := natToChars_digits n '-' hmem
  have hval : ('-').toNat = 45 := by decide
  omega

theorem splitOnceChars_append {a : List Char} (b : List Char)
    (ha : ¬ '-' ∈ a) :
    splitOnceChars (a ++ '-' :: b) '-' = some (a, b) := by
  induction a with
  | nil => simp [splitOnceChars]
  | cons c rest ih =>
    have hc : ¬ c = '-' := fun h => ha (h ▸ List.mem_cons_self ..)
    have hrest : ¬ '-' ∈ rest := fun h => ha (List.mem_cons_of_mem _ h)
    rw [List.cons_append, splitOnceChars]
    simp only [List.append_eq, if_neg hc]
    rw [ih hrest]
    rfl

theorem split_once_name_num (a : String) (n : Nat) (ha : ¬ '-' ∈ a.data) :
    split_once (a ++ "-" ++ natToString n) '-' = some (a, natToString n) := by
  unfold split_once
  have hdata : (a ++ "-" ++ natToString n).data = a.data ++ '-' :: (natToString n).data := by
    rw [String.data_append, String.data_append, List.append_assoc]
    rfl
  rw [hdata, splitOnceChars_append _ ha]
  cases a with
  | mk ad =>
    cases hns : natToString n with
    | mk nd => rfl

theorem calculate_server_num_name (a : String) (n : Nat) (ha : ¬ '-' ∈ a.data)
    (hn : n ≤ 18446744073709551615) :
    calculate_server_num (a ++ "-" ++ natToString n) = n := by
  unfold calculate_server_num
  rw [split_once_name_num a n ha]
  simp only [Option.getD_some]
  rw [parseUnsigned_natToString hn]
  rfl

theorem getInstancesMap_push (m : List (String × List MCSInstance)) (k : String)
    (i : MCSInstance) :
    getInstancesMap (pushInstance m k i) k =
      some ((getInstancesMap m k).getD [] ++ [i]) := by
  unfold pushInstance
  by_cases hsome : (getInstancesMap m k).isSome = true
  · rw [if_pos hsome]
    induction m with
    | nil => simp [getInstancesMap] at hsome
    | cons p rest ih =>
      by_cases hk : p.1 = k
      · have hbeq : (p.1 == k) = true := by simp [hk]
        unfold getInstancesMap at hsome ⊢
        simp only [List.map_cons, List.find?_cons, hbeq, if_pos] at hsome ⊢
        simp [hbeq]
      · have hbeq : (p.1 == k) = false := by simp [hk]
        unfold getInstancesMap at hsome ⊢
        simp only [List.map_cons, List.find?_cons, hbeq] at hsome ⊢
        have := ih (by simpa [getInstancesMap, hbeq] using hsome)
        simpa [getInstancesMap, hbeq] using this
  · rw [if_neg hsome]
    induction m with
    | nil => simp [getInstancesMap]
    | cons p rest ih =>
      by_cases hk : p.1 = k
      · exfalso
        apply hsome
        simp [getInstancesMap, List.find?_cons, hk]
      · have hbeq : (p.1 == k) = false := by simp [hk]
        unfold getInstancesMap at hsome ⊢
        simp only [List.cons_append, List.find?_cons, hbeq] at hsome ⊢
        have := ih (by simpa [getInstancesMap, hbeq] using hsome)
        simpa [getInstancesMap, hbeq] using this

theorem contains_append_self (l : List Nat) (n : Nat) : (l ++ [n]).contains n = true := by
  induction l with
  | nil => simp
  | cons x xs ih => simp [ih]

/-- C9 (amended): for a group whose name contains no dash (so the server
number embedded in the instance name round-trips) and a `usize` server
number, after a successful `add_server(g, n)` a second `add_server(g, n)`
leaves the node exactly as it was and returns an error: `Duplicate` when
the node still has space for the group, and the no-space `StorageError`
otherwise (the space check runs first in the source). -/
theorem C9_duplicate_amended (self : DedicatedServer) (g : ServerGroup) (n : Nat)
    (self' : DedicatedServer)
    (hname : ¬ '-' ∈ g.name.data) (hn : n ≤ 18446744073709551615)
    (h : self.add_server g n = (.ok (), self')) :
    (self'.add_server g n).2 = self'
    ∧ (self'.add_server g n).1 =
        (if self'.has_space_for g then Except.error .DuplicateInstanceRunning
         else Except.error .StorageError) := by
  unfold DedicatedServer.add_server at h
  by_cases hsp : self.has_space_for g = true
  · rw [if_neg (by simp [hsp])] at h
    by_cases hdup : (self.get_server_nums g).contains n = true
    · rw [if_pos hdup] at h
      exact absurd (congrArg Prod.fst h) (fun hc => Except.noConfusion hc)
    · rw [if_neg hdup] at h
      have h2 := congrArg (fun p => getInstancesMap p.2.server_instances g.name) h
      dsimp only at h2
      rw [getInstancesMap_push] at h2
      have hnum : (MCSInstance.new (g.name ++ "-" ++ natToString n) g.name
          (u16add g.port_section (n % 18446744073709551616 % 65536)) g.region
          none).server_num = n := by
        show calculate_server_num (g.name ++ "-" ++ natToString n) = n
        exact calculate_server_num_name g.name n hname hn
      have hcontains : (self'.get_server_nums g).contains n = true := by
        unfold DedicatedServer.get_server_nums
        rw [← h2]
        simp only [Option.getD_some, List.map_append, List.map_cons, List.map_nil]
        rw [hnum]
        exact contains_append_self _ n
      constructor
      · unfold DedicatedServer.add_server
        by_cases hsp' : self'.has_space_for g = true
        · rw [if_neg (by simp [hsp']), if_pos hcontains]
        · rw [if_pos (by simp [Bool.eq_false_iff.mpr hsp'])]
      · unfold DedicatedServer.add_server
        by_cases hsp' : self'.has_space_for g = true
        · rw [if_neg (by simp [hsp']), if_pos hcontains, if_pos hsp']
        · rw [if_pos (by simp [Bool.eq_false_iff.mpr hsp']), if_neg hsp']
  · rw [if_pos (by simp [hsp])] at h
    exact absurd (congrArg Prod.fst h) (fun hc => Except.noConfusion hc)

/-- C9 counterexample: on a node with room for exactly one instance, the
second `add_server(g, 3)` returns the no-space `StorageError`, not
`Duplicate` — the space check runs before the duplicate check — refuting
the claim as stated. -/
theorem C9_duplicate_cex :
    (node9.add_server wGroup 3).1 = .ok ()
    ∧ (node9after.add_server wGroup 3).1 = .error .StorageError := by
  constructor
  · decide
  · decide

/-- Witness: the amended duplicate-rejection theorem at concrete inputs
(space remains, so the second call is a `Duplicate` error). -/
theorem C9_duplicate_witness :
    (roomyNodeAfter.add_server wGroup 3).2 = roomyNodeAfter
    ∧ (roomyNodeAfter.add_server wGroup 3).1 =
        (if roomyNodeAfter.has_space_for wGroup then
          Except.error DedicatedServerError.DuplicateInstanceRunning
         else Except.error DedicatedServerError.StorageError) :=
  C9_duplicate_amended roomyNode wGroup 3 roomyNodeAfter (by decide) (by decide) rfl
